import Mathlib
/-!
Verification of the MSHD-2.0 disaster-identifier codec
(`code/backend/codec/codec.py`, `dictionaries.py`, `models.py`), as a
shallow embedding.  Python strings are Lean `String`s (lists of
characters), Python `int` is Lean `Int`, and fallible Python code that
raises `ValueError` is embedded as `Except String`.  Digit handling is
modelled over the ASCII range (the dictionaries and all identifiers are
ASCII).
-/

namespace MSHD
/-! ### Dictionary Store (`codec/dictionaries.py`) -/
/-! ### Timestamp handling (`_format_time_code`) -/

/-- ASCII decimal digit test, modelling `str.isdigit` character-wise. -/
def isDigitChar (c : Char) : Bool := 48 ≤ c.toNat && c.toNat ≤ 57

/-- Numeric value of an ASCII digit character. -/
def digitVal (c : Char) : Nat := c.toNat - 48

/-- Value of a decimal digit string, most significant digit first. -/
def digitsVal (cs : List Char) : Nat := cs.foldl (fun a c => 10 * a + digitVal c) 0

/-- Python `len` on a string (number of characters). -/
def strLen (s : String) : Nat := s.data.length

/-- Python `str.isdigit` (nonempty and all digits). -/
def pyIsdigit (s : String) : Bool := !s.data.isEmpty && s.data.all isDigitChar

/-- Python slice `s[a:b]` for nonnegative bounds. -/
def pySlice (s : String) (a b : Nat) : String := ⟨(s.data.drop a).take (b - a)⟩

/-- The character for a decimal digit. -/
def digitChar (n : Nat) : Char :=
  match n with
  | 0 => '0' | 1 => '1' | 2 => '2' | 3 => '3' | 4 => '4'
  | 5 => '5' | 6 => '6' | 7 => '7' | 8 => '8' | 9 => '9'
  | _ => '*'

/-- Decimal digits of a natural number, most significant first, with
explicit fuel so that the definition is structural and kernel-reducible. -/
def natDigitsAux : Nat → Nat → List Char
  | 0, _ => []
  | fuel + 1, n =>
    if n < 10 then [digitChar n]
    else natDigitsAux fuel (n / 10) ++ [digitChar (n % 10)]

/-- Decimal representation of a natural number.  Fuel 40 covers every
number below `10 ^ 40`; the codec only ever renders numbers below `10 ^ 7`. -/
def natToDigits (n : Nat) : List Char := natDigitsAux 40 n

/-- Python `str(int)`: canonical decimal representation, `-` sign for
negative values. -/
def intToStr (v : Int) : String :=
  if v < 0 then ⟨'-' :: natToDigits v.natAbs⟩ else ⟨natToDigits v.toNat⟩

/-- Left-pad a digit string with zeros to the given width. -/
def leftPadZeros (w : Nat) (cs : List Char) : List Char :=
  List.replicate (w - cs.length) '0' ++ cs

/-- Python `"{:0wd}".format(v)`: zero-padded fixed-width rendering of an
integer (sign first for negative values, zeros after the sign). -/
def pyZeroPad (w : Nat) (v : Int) : List Char :=
  if v < 0 then '-' :: leftPadZeros (w - 1) (natToDigits v.natAbs)
  else leftPadZeros w (natToDigits v.toNat)

/-- Python `int(s)`: optional sign followed by a nonempty run of digits.
(Surrounding whitespace and underscore separators accepted by CPython are
not modelled; no identifier field uses them.) -/
def pyIntAux : List Char → Option Int
  | [] => none
  | c :: cs =>
    if c = '-' then
      if cs ≠ [] ∧ cs.all isDigitChar then some (-(digitsVal cs : Int)) else none
    else if c = '+' then
      if cs ≠ [] ∧ cs.all isDigitChar then some ((digitsVal cs : Int)) else none
    else if (c :: cs).all isDigitChar then some ((digitsVal (c :: cs) : Int)) else none

/-- Python `int(s)` on a string, via its character list. -/
def pyInt (s : String) : Option Int := pyIntAux s.data

/-- Success test for an `Except` result. -/
def exceptOk {ε α : Type} : Except ε α → Bool
  | .ok _ => true
  | .error _ => false

/-- `SOURCE_DICT`: source category and sub-code to name
(`SOURCE_DICT.get(cat, {}).get(sub)` as a nested conditional lookup). -/
def SOURCE_DICT (cat sub : String) : Option String :=
  if cat = "1" then
    if sub = "00" then some "前方地震应急指挥部"
    else if sub = "01" then some "后方地震应急指挥部"
    else if sub = "20" then some "应急指挥技术系统"
    else if sub = "21" then some "社会服务工程应急救援系统"
    else if sub = "40" then some "危险区预评估工作组"
    else if sub = "41" then some "地震应急指挥技术协调组"
    else if sub = "42" then some "震后政府信息支持工作项目组"
    else if sub = "80" then some "灾情快速上报接收处理系统"
    else if sub = "81" then some "地方地震局应急信息服务相关技术系统"
    else if sub = "99" then some "其他"
    else none
  else if cat = "2" then
    if sub = "00" then some "互联网感知"
    else if sub = "01" then some "通信网感知"
    else if sub = "02" then some "舆情网感知"
    else if sub = "03" then some "电力系统感知"
    else if sub = "04" then some "交通系统感知"
    else if sub = "05" then some "其他"
    else none
  else if cat = "3" then
    if sub = "00" then some "其他数据" else none
  else none

/-- `CARRIER_DICT`: carrier code to name. -/
def CARRIER_DICT (code : String) : Option String :=
  if code = "0" then some "文字"
  else if code = "1" then some "图像"
  else if code = "2" then some "音频"
  else if code = "3" then some "视频"
  else if code = "4" then some "其他"
  else none

/-- `DISASTER_CATEGORY_DICT`: disaster category and subcategory to name. -/
def DISASTER_CATEGORY_DICT (cat sub : String) : Option String :=
  if cat = "2" then
    if sub = "01" then some "死亡"
    else if sub = "02" then some "受伤"
    else if sub = "03" then some "失踪"
    else none
  else if cat = "3" then
    if sub = "01" then some "土木"
    else if sub = "02" then some "砖木"
    else if sub = "03" then some "砖混"
    else if sub = "04" then some "框架"
    else if sub = "05" then some "其他"
    else none
  else if cat = "4" then
    if sub = "01" then some "交通"
    else if sub = "02" then some "供水"
    else if sub = "03" then some "输油"
    else if sub = "04" then some "燃气"
    else if sub = "05" then some "电力"
    else if sub = "06" then some "通信"
    else if sub = "07" then some "水利"
    else none
  else if cat = "5" then
    if sub = "01" then some "崩塌"
    else if sub = "02" then some "滑坡"
    else if sub = "03" then some "泥石流"
    else if sub = "04" then some "岩溶塌陷"
    else if sub = "05" then some "海啸"
    else if sub = "06" then some "台风"
    else if sub = "07" then some "地震"
    else if sub = "08" then some "其他"
    else none
  else none

/-- `HOUSE_DAMAGE_INDICATORS`. -/
def HOUSE_DAMAGE_INDICATORS (i : String) : Option String :=
  if i = "001" then some "一般损坏面积"
  else if i = "002" then some "严重损坏面积"
  else if i = "003" then some "受灾程度"
  else none

/-- `LIFELINE_INDICATORS`. -/
def LIFELINE_INDICATORS (i : String) : Option String :=
  if i = "001" then some "受灾设施数"
  else if i = "002" then some "受灾范围"
  else if i = "003" then some "受灾程度"
  else none

/-- `SECONDARY_INDICATORS`. -/
def SECONDARY_INDICATORS (i : String) : Option String :=
  if i = "001" then some "灾害损失"
  else if i = "002" then some "灾害范围"
  else if i = "003" then some "受灾程度"
  else none

/-- `DISASTER_INDICATOR_DICT`: category, subcategory and indicator to name. -/
def DISASTER_INDICATOR_DICT (cat sub i : String) : Option String :=
  if cat = "1" then
    if sub = "01" then
      if i = "001" then some "地理位置"
      else if i = "002" then some "时间"
      else if i = "003" then some "震级"
      else if i = "004" then some "震源深度"
      else if i = "005" then some "烈度"
      else none
    else none
  else if cat = "2" then
    if sub = "01" ∨ sub = "02" ∨ sub = "03" then
      if i = "001" then some "受灾人数"
      else if i = "002" then some "受灾程度"
      else none
    else none
  else if cat = "3" then
    if sub = "01" ∨ sub = "02" ∨ sub = "03" ∨ sub = "04" ∨ sub = "05" then
      HOUSE_DAMAGE_INDICATORS i
    else none
  else if cat = "4" then
    if sub = "01" ∨ sub = "02" ∨ sub = "03" ∨ sub = "04" ∨ sub = "05" ∨ sub = "06" ∨
        sub = "07" then
      LIFELINE_INDICATORS i
    else none
  else if cat = "5" then
    if sub = "01" ∨ sub = "02" ∨ sub = "03" ∨ sub = "04" ∨ sub = "05" ∨ sub = "06" ∨
        sub = "07" then
      SECONDARY_INDICATORS i
    else none
  else none

/-- Result of `get_disaster_names`. -/
structure DisasterNames where
  category : Option String
  sub_category : Option String
  indicator : Option String
deriving DecidableEq

/-- `get_source_name(code)`: raises unless `code` is 3 digits, else looks up
`code[0]` and `code[1:]` (the lookup itself may return `None`). -/
def get_source_name (code : String) : Except String (Option String) :=
  if strLen code ≠ 3 ∨ ¬ pyIsdigit code then .error "source code must be 3 digits"
  else .ok (SOURCE_DICT (pySlice code 0 1) (pySlice code 1 3))

/-- `get_carrier_name(code)`. -/
def get_carrier_name (code : String) : Option String := CARRIER_DICT code

/-- `get_disaster_names(category, sub_category, indicator)`: the
`sub_category` slot is filled from the same category lookup as `category`. -/
def get_disaster_names (category sub_category indicator : String) : DisasterNames :=
  let cat_name := DISASTER_CATEGORY_DICT category sub_category
  let indicator_name := DISASTER_INDICATOR_DICT category sub_category indicator
  { category := cat_name
    sub_category := cat_name
    indicator := indicator_name }

/-- `validate_source(code)`. -/
def validate_source (code : String) : Except String Unit := do
  let n ← get_source_name code
  if n = none then throw ("unknown source code: " ++ code) else pure ()

/-- `validate_carrier(code)`. -/
def validate_carrier (code : String) : Except String Unit :=
  if get_carrier_name code = none then .error ("unknown carrier code: " ++ code)
  else .ok ()

/-- `validate_disaster(category, sub_category, indicator)`. -/
def validate_disaster (category sub_category indicator : String) : Except String Unit :=
  let names := get_disaster_names category sub_category indicator
  if names.category = none ∨ names.indicator = none then
    .error ("unknown disaster code combination: " ++ category ++ sub_category ++ indicator)
  else .ok ()

instance {ε α : Type} [DecidableEq ε] [DecidableEq α] : DecidableEq (Except ε α) := fun x y =>
  match x, y with
  | .error a, .error b =>
    if h : a = b then .isTrue (by rw [h]) else .isFalse (by intro hc; cases hc; exact h rfl)
  | .error _, .ok _ => .isFalse (by intro hc; cases hc)
  | .ok _, .error _ => .isFalse (by intro hc; cases hc)
  | .ok a, .ok b =>
    if h : a = b then .isTrue (by rw [h]) else .isFalse (by intro hc; cases hc; exact h rfl)

/-! ### Pydantic field records (`codec/models.py`, coordinate variant) -/

structure EventInfo where
  lat_code : String
  lng_code : String
  time_code : String
deriving DecidableEq

structure SourceInfo where
  code : String
deriving DecidableEq

structure CarrierInfo where
  code : String
deriving DecidableEq

structure DisasterInfo where
  category : String
  sub_category : String
  indicator : String
deriving DecidableEq

structure Names where
  source : Option String
  carrier : Option String
  disaster_category : Option String
  disaster_sub_category : Option String
  indicator : Option String
deriving DecidableEq

structure DecodedRecord where
  id : String
  event : EventInfo
  source : SourceInfo
  carrier : CarrierInfo
  disaster : DisasterInfo
  names : Option Names
deriving DecidableEq

/-- Pydantic construction of `EventInfo`: field length bounds
(2–8 / 2–8 / 14–14), then the validators `validate_lat`, `validate_lng`
(`int(v)` must parse and lie in range) and `validate_time` (`isdigit`). -/
def mkEventInfoE (lat lng time : String) : Except String EventInfo :=
  if strLen lat < 2 ∨ 8 < strLen lat then .error "lat_code length out of bounds"
  else match pyInt lat with
  | none => .error "lat_code must be integer"
  | some vlat =>
    if vlat < -90000 ∨ 90000 < vlat then .error "lat_code out of range [-90000,90000]"
    else if strLen lng < 2 ∨ 8 < strLen lng then .error "lng_code length out of bounds"
    else match pyInt lng with
    | none => .error "lng_code must be integer"
    | some vlng =>
      if vlng < -180000 ∨ 180000 < vlng then .error "lng_code out of range [-180000,180000]"
      else if strLen time ≠ 14 then .error "time_code length out of bounds"
      else if ¬ pyIsdigit time then .error "time_code must be 14 digits in yyyyMMddHHmmss format"
      else .ok ⟨lat, lng, time⟩

/-- An `EventInfo` value constructible by pydantic. -/
def EventInfo.Valid (e : EventInfo) : Prop :=
  mkEventInfoE e.lat_code e.lng_code e.time_code = .ok e

instance (e : EventInfo) : Decidable e.Valid := by
  unfold EventInfo.Valid; infer_instance

/-- Pydantic construction of `SourceInfo` (code exactly 3 characters). -/
def mkSourceInfoE (code : String) : Except String SourceInfo :=
  if strLen code ≠ 3 then .error "source code length out of bounds" else .ok ⟨code⟩

def SourceInfo.Valid (s : SourceInfo) : Prop := mkSourceInfoE s.code = .ok s

instance (s : SourceInfo) : Decidable s.Valid := by
  unfold SourceInfo.Valid; infer_instance

/-- Pydantic construction of `CarrierInfo` (code exactly 1 character). -/
def mkCarrierInfoE (code : String) : Except String CarrierInfo :=
  if strLen code ≠ 1 then .error "carrier code length out of bounds" else .ok ⟨code⟩

def CarrierInfo.Valid (c : CarrierInfo) : Prop := mkCarrierInfoE c.code = .ok c

instance (c : CarrierInfo) : Decidable c.Valid := by
  unfold CarrierInfo.Valid; infer_instance

/-- Pydantic construction of `DisasterInfo` (widths 1 / 2 / 3). -/
def mkDisasterInfoE (category sub_category indicator : String) : Except String DisasterInfo :=
  if strLen category ≠ 1 then .error "disaster category length out of bounds"
  else if strLen sub_category ≠ 2 then .error "disaster sub_category length out of bounds"
  else if strLen indicator ≠ 3 then .error "disaster indicator length out of bounds"
  else .ok ⟨category, sub_category, indicator⟩

def DisasterInfo.Valid (d : DisasterInfo) : Prop :=
  mkDisasterInfoE d.category d.sub_category d.indicator = .ok d

instance (d : DisasterInfo) : Decidable d.Valid := by
  unfold DisasterInfo.Valid; infer_instance

/-- Gregorian leap year. -/
def isLeap (y : Nat) : Bool := (y % 4 = 0 && y % 100 ≠ 0) || y % 400 = 0

/-- Days in a month of the proleptic Gregorian calendar. -/
def daysInMonth (y m : Nat) : Nat :=
  match m with
  | 1 => 31 | 2 => if isLeap y then 29 else 28 | 3 => 31 | 4 => 30
  | 5 => 31 | 6 => 30 | 7 => 31 | 8 => 31 | 9 => 30 | 10 => 31
  | 11 => 30 | 12 => 31 | _ => 0

/-- `datetime.strptime(s, "%Y%m%d%H%M%S")` succeeds on a 14-digit string:
the six positional fields must form a valid `datetime`. -/
def strptime14_ok (s : String) : Bool :=
  let y := digitsVal (s.data.take 4)
  let mo := digitsVal ((s.data.drop 4).take 2)
  let d := digitsVal ((s.data.drop 6).take 2)
  let hh := digitsVal ((s.data.drop 8).take 2)
  let mi := digitsVal ((s.data.drop 10).take 2)
  let ss := digitsVal ((s.data.drop 12).take 2)
  decide (1 ≤ y) && decide (1 ≤ mo) && decide (mo ≤ 12) &&
  decide (1 ≤ d) && decide (d ≤ daysInMonth y mo) &&
  decide (hh ≤ 23) && decide (mi ≤ 59) && decide (ss ≤ 59)

/-- Datetime produced by `datetime.fromisoformat` (timezone and
microseconds are parsed for validity but not retained: `strftime`
with `%Y%m%d%H%M%S` does not render them). -/
structure PyDateTime where
  year : Nat
  month : Nat
  day : Nat
  hour : Nat
  minute : Nat
  second : Nat
deriving DecidableEq

/-- `_parse_hh_mm_ss_ff`: `HH`, `HH:MM`, `HH:MM:SS`, or `HH:MM:SS` with a
fractional part of exactly 3 or 6 digits. -/
def parse_hh_mm_ss (cs : List Char) : Option (Nat × Nat × Nat) :=
  match cs with
  | [a, b] =>
    if [a, b].all isDigitChar then some (digitsVal [a, b], 0, 0) else none
  | [a, b, ':', d, e] =>
    if [a, b, d, e].all isDigitChar then some (digitsVal [a, b], digitsVal [d, e], 0)
    else none
  | [a, b, ':', d, e, ':', f, g] =>
    if [a, b, d, e, f, g].all isDigitChar then
      some (digitsVal [a, b], digitsVal [d, e], digitsVal [f, g])
    else none
  | a :: b :: ':' :: d :: e :: ':' :: f :: g :: '.' :: fr =>
    if [a, b, d, e, f, g].all isDigitChar ∧ fr.all isDigitChar ∧
        (fr.length = 3 ∨ fr.length = 6) then
      some (digitsVal [a, b], digitsVal [d, e], digitsVal [f, g])
    else none
  | _ => none

/-- `_parse_isoformat_time`: optional UTC offset introduced by the first
`-` (else the first `+`); the offset text must be one of the three
`_parse_hh_mm_ss_ff` shapes of length 5, 8 or 15 and denote less than 24
hours; the time components must form a valid `time`. -/
def parse_isotime (tcs : List Char) : Option (Nat × Nat × Nat) :=
  let sepPos :=
    match List.findIdx? (fun c => c = '-') tcs with
    | some i => some i
    | none => List.findIdx? (fun c => c = '+') tcs
  match sepPos with
  | none =>
    match parse_hh_mm_ss tcs with
    | some (h, m, s) => if h ≤ 23 ∧ m ≤ 59 ∧ s ≤ 59 then some (h, m, s) else none
    | none => none
  | some i =>
    let timestr := tcs.take i
    let tzstr := tcs.drop (i + 1)
    if tzstr.length = 5 ∨ tzstr.length = 8 ∨ tzstr.length = 15 then
      match parse_hh_mm_ss timestr, parse_hh_mm_ss tzstr with
      | some (h, m, s), some (th, tm, ts) =>
        if h ≤ 23 ∧ m ≤ 59 ∧ s ≤ 59 ∧ th * 3600 + tm * 60 + ts < 86400 then
          some (h, m, s)
        else none
      | _, _ => none
    else none

/-- `datetime.fromisoformat` (strict pre-3.11 grammar: `YYYY-MM-DD`,
optionally a one-character separator and an isoformat time). -/
def fromisoformat (s : String) : Option PyDateTime :=
  match s.data with
  | y1 :: y2 :: y3 :: y4 :: '-' :: m1 :: m2 :: '-' :: d1 :: d2 :: rest =>
    if [y1, y2, y3, y4, m1, m2, d1, d2].all isDigitChar then
      let y := digitsVal [y1, y2, y3, y4]
      let mo := digitsVal [m1, m2]
      let d := digitsVal [d1, d2]
      if 1 ≤ y ∧ 1 ≤ mo ∧ mo ≤ 12 ∧ 1 ≤ d ∧ d ≤ daysInMonth y mo then
        match rest with
        | [] => some ⟨y, mo, d, 0, 0, 0⟩
        | _sep :: tcs =>
          match parse_isotime tcs with
          | some (hh, mi, ss) => some ⟨y, mo, d, hh, mi, ss⟩
          | none => none
      else none
    else none
  | _ => none

/-- `time_str.replace("Z", "+00:00")`. -/
def pyReplaceZ (s : String) : String :=
  ⟨(s.data.map (fun c => if c = 'Z' then ['+', '0', '0', ':', '0', '0'] else [c])).flatten⟩

/-- `dt.strftime("%Y%m%d%H%M%S")`. -/
def strftime14 (dt : PyDateTime) : String :=
  ⟨leftPadZeros 4 (natToDigits dt.year) ++ leftPadZeros 2 (natToDigits dt.month) ++
   leftPadZeros 2 (natToDigits dt.day) ++ leftPadZeros 2 (natToDigits dt.hour) ++
   leftPadZeros 2 (natToDigits dt.minute) ++ leftPadZeros 2 (natToDigits dt.second)⟩

/-- `_format_time_code`: accept a 14-digit compact timestamp (checked by a
strict calendar parse, with no ISO fallback on failure) or an ISO-8601
string with a trailing `Z` normalised to `+00:00`. -/
def format_time_code (time_str : String) : Except String String :=
  if strLen time_str = 14 ∧ pyIsdigit time_str then
    if strptime14_ok time_str then .ok time_str
    else .error "time data does not match format"
  else
    match fromisoformat (pyReplaceZ time_str) with
    | none => .error "invalid isoformat string"
    | some dt => .ok (strftime14 dt)

/-! ### The codec (`codec/codec.py`, coordinate variant) -/

def ID_TOTAL_LENGTH : Nat := 36

def EVENT_CODE_LEN : Nat := 26

def SOURCE_CODE_LEN : Nat := 3

def CARRIER_CODE_LEN : Nat := 1

def DISASTER_CODE_LEN : Nat := 6

/-- `_format_coord`: parse the code as an integer, check the range, add
the domain offset (+90000 for `lat_code`, +180000 otherwise) and zero-pad. -/
def format_coord (code : String) (width : Nat) (field : String)
    (min_val max_val : Int) : Except String String :=
  match pyInt code with
  | none => .error (field ++ " must be integer")
  | some v =>
    if v < min_val ∨ max_val < v then
      .error (field ++ " out of range [" ++ intToStr min_val ++ "," ++ intToStr max_val ++ "]")
    else
      let offset : Int := if field = "lat_code" then 90000 else 180000
      .ok ⟨pyZeroPad width (v + offset)⟩

/-- `_ensure_numeric`. -/
def ensure_numeric (s : String) (width : Nat) (field : String) : Except String Unit :=
  if strLen s ≠ width then .error (field ++ " must be " ++ ⟨natToDigits width⟩ ++ " digits")
  else if ¬ pyIsdigit s then .error (field ++ " must be numeric")
  else .ok ()

/-- `encode_disaster`: dictionary validation first, then per-field
formatting and width checks, then concatenation with a defensive total
length check. -/
def encode_disaster (event : EventInfo) (source : SourceInfo) (carrier : CarrierInfo)
    (disaster : DisasterInfo) : Except String String := do
  validate_source source.code
  validate_carrier carrier.code
  validate_disaster disaster.category disaster.sub_category disaster.indicator
  let lat_code_fmt ← format_coord event.lat_code 6 "lat_code" (-90000) 90000
  let lng_code_fmt ← format_coord event.lng_code 6 "lng_code" (-180000) 180000
  ensure_numeric source.code 3 "source.code"
  ensure_numeric carrier.code 1 "carrier.code"
  ensure_numeric disaster.category 1 "disaster.category"
  ensure_numeric disaster.sub_category 2 "disaster.sub_category"
  ensure_numeric disaster.indicator 3 "disaster.indicator"
  let event_part := lat_code_fmt ++ lng_code_fmt ++ event.time_code
  let disaster_part := disaster.category ++ disaster.sub_category ++ disaster.indicator
  let encoded := event_part ++ source.code ++ carrier.code ++ disaster_part
  if strLen encoded ≠ ID_TOTAL_LENGTH then .error "encoded ID length mismatch"
  else pure encoded

/-- `_split_id`: positional split at 26 / 3 / 1 / 6, the event part into
6 + 6 + 14 and the disaster part into 1 + 2 + 3. -/
def split_id (encoded_id : String) :
    (String × String × String) × String × String × (String × String × String) :=
  let event_part := pySlice encoded_id 0 EVENT_CODE_LEN
  let source_part := pySlice encoded_id EVENT_CODE_LEN (EVENT_CODE_LEN + SOURCE_CODE_LEN)
  let carrier_part := pySlice encoded_id (EVENT_CODE_LEN + SOURCE_CODE_LEN)
    (EVENT_CODE_LEN + SOURCE_CODE_LEN + CARRIER_CODE_LEN)
  let disaster_part := pySlice encoded_id (EVENT_CODE_LEN + SOURCE_CODE_LEN + CARRIER_CODE_LEN)
    (EVENT_CODE_LEN + SOURCE_CODE_LEN + CARRIER_CODE_LEN + DISASTER_CODE_LEN)
  let lat_code := pySlice event_part 0 6
  let lng_code := pySlice event_part 6 12
  let time_code := pySlice event_part 12 (strLen event_part)
  ((lat_code, lng_code, time_code), source_part, carrier_part,
    (pySlice disaster_part 0 1, pySlice disaster_part 1 3, pySlice disaster_part 3 6))

/-- The subtraction performed on the decoded latitude offset field. -/
def decode_lat_int (s : String) : Int := (digitsVal s.data : Int) - 90000

/-- The subtraction performed on the decoded longitude offset field. -/
def decode_lng_int (s : String) : Int := (digitsVal s.data : Int) - 180000

/-- `decode_disaster`: length and charset check, positional split,
reconstruction of the pydantic records (re-running their validation),
name resolution, dictionary validation, and assembly of the record.
(`int` applied to the offset fields is the plain digit value: at that
point the whole identifier is known to consist of digits.) -/
def decode_disaster (encoded_id : String) : Except String DecodedRecord :=
  if strLen encoded_id ≠ ID_TOTAL_LENGTH then .error "encoded id length must be 36"
  else if ¬ pyIsdigit encoded_id then .error "encoded id must be numeric"
  else
    let parts := split_id encoded_id
    let lat_int := decode_lat_int parts.1.1
    let lng_int := decode_lng_int parts.1.2.1
    match mkEventInfoE (intToStr lat_int) (intToStr lng_int) parts.1.2.2 with
    | .error m => .error m
    | .ok event =>
      match mkSourceInfoE parts.2.1 with
      | .error m => .error m
      | .ok source =>
        match mkCarrierInfoE parts.2.2.1 with
        | .error m => .error m
        | .ok carrier =>
          match mkDisasterInfoE parts.2.2.2.1 parts.2.2.2.2.1 parts.2.2.2.2.2 with
          | .error m => .error m
          | .ok disaster =>
            match get_source_name source.code with
            | .error m => .error m
            | .ok source_name =>
              let carrier_name := get_carrier_name carrier.code
              let disaster_names :=
                get_disaster_names disaster.category disaster.sub_category disaster.indicator
              match validate_source source.code with
              | .error m => .error m
              | .ok _ =>
                match validate_carrier carrier.code with
                | .error m => .error m
                | .ok _ =>
                  match validate_disaster disaster.category disaster.sub_category
                      disaster.indicator with
                  | .error m => .error m
                  | .ok _ =>
                    .ok { id := encoded_id
                          event := event
                          source := source
                          carrier := carrier
                          disaster := disaster
                          names := some { source := source_name
                                          carrier := carrier_name
                                          disaster_category := disaster_names.category
                                          disaster_sub_category := disaster_names.sub_category
                                          indicator := disaster_names.indicator } }

/-- `build_event_info` (coordinate variant). -/
def build_event_info (lat_code lng_code time_str : String) : Except String EventInfo := do
  let time_code ← format_time_code time_str
  mkEventInfoE lat_code lng_code time_code

/-- `build_source_info`. -/
def build_source_info (source_code : String) : Except String SourceInfo :=
  mkSourceInfoE source_code

/-- `build_carrier_info`. -/
def build_carrier_info (carrier_code : String) : Except String CarrierInfo :=
  mkCarrierInfoE carrier_code

/-- `build_disaster_info`. -/
def build_disaster_info (category sub_category indicator : String) :
    Except String DisasterInfo :=
  mkDisasterInfoE category sub_category indicator

/-- The location-code variant `EventInfo`
(`code-dictionary/backend/codec/models.py`). -/
structure EventInfoLoc where
  location_code : String
  time_code : String
deriving DecidableEq

/-- Pydantic construction of the location-code `EventInfo`: 12-digit
numeric location code and 14-digit numeric time code. -/
def mkEventInfoLocE (location_code time_code : String) : Except String EventInfoLoc :=
  if strLen location_code ≠ 12 then .error "location_code length out of bounds"
  else if ¬ pyIsdigit location_code then .error "location_code must be 12 digits"
  else if strLen time_code ≠ 14 then .error "time_code length out of bounds"
  else if ¬ pyIsdigit time_code then
    .error "time_code must be 14 digits in yyyyMMddHHmmss format"
  else .ok ⟨location_code, time_code⟩

/-- Decoded record of the location-code variant. -/
structure DecodedRecordLoc where
  id : String
  event : EventInfoLoc
  source : SourceInfo
  carrier : CarrierInfo
  disaster : DisasterInfo
  names : Option Names
deriving DecidableEq

/-- Modelled from the spec: `encode_disaster` of the location-code variant
(variant A).  The variant's codec module itself is not under src/ — only
its pydantic models (`code-dictionary/backend/codec/models.py`), its HTTP
caller and its test (`code/backend/tests/test_codec.py`) are — so the
encode path follows spec §4.2: dictionary validation first, then
width/charset checks, then concatenation location(12) + time(14) +
source(3) + carrier(1) + disaster(6) with the defensive 36-length check. -/
def encode_disaster_loc (event : EventInfoLoc) (source : SourceInfo)
    (carrier : CarrierInfo) (disaster : DisasterInfo) : Except String String := do
  validate_source source.code
  validate_carrier carrier.code
  validate_disaster disaster.category disaster.sub_category disaster.indicator
  ensure_numeric event.location_code 12 "location_code"
  ensure_numeric event.time_code 14 "time_code"
  ensure_numeric source.code 3 "source.code"
  ensure_numeric carrier.code 1 "carrier.code"
  ensure_numeric disaster.category 1 "disaster.category"
  ensure_numeric disaster.sub_category 2 "disaster.sub_category"
  ensure_numeric disaster.indicator 3 "disaster.indicator"
  let encoded := event.location_code ++ event.time_code ++ source.code ++ carrier.code ++
    disaster.category ++ disaster.sub_category ++ disaster.indicator
  if strLen encoded ≠ ID_TOTAL_LENGTH then .error "encoded ID length mismatch"
  else pure encoded

/-- Modelled from the spec: `decode_disaster` of the location-code variant
(spec §4.2): length and charset check, positional split at
[0,12) / [12,26) / [26,29) / [29,30) / [30,31) / [31,33) / [33,36),
reconstruction of the validated records, name resolution and dictionary
validation, undefined codes rejected. -/
def decode_disaster_loc (encoded_id : String) : Except String DecodedRecordLoc :=
  if strLen encoded_id ≠ ID_TOTAL_LENGTH then .error "encoded id length must be 36"
  else if ¬ pyIsdigit encoded_id then .error "encoded id must be numeric"
  else
    match mkEventInfoLocE (pySlice encoded_id 0 12) (pySlice encoded_id 12 26) with
    | .error m => .error m
    | .ok event =>
      match mkSourceInfoE (pySlice encoded_id 26 29) with
      | .error m => .error m
      | .ok source =>
        match mkCarrierInfoE (pySlice encoded_id 29 30) with
        | .error m => .error m
        | .ok carrier =>
          match mkDisasterInfoE (pySlice encoded_id 30 31) (pySlice encoded_id 31 33)
              (pySlice encoded_id 33 36) with
          | .error m => .error m
          | .ok disaster =>
            match get_source_name source.code with
            | .error m => .error m
            | .ok source_name =>
              let carrier_name := get_carrier_name carrier.code
              let disaster_names :=
                get_disaster_names disaster.category disaster.sub_category disaster.indicator
              match validate_source source.code with
              | .error m => .error m
              | .ok _ =>
                match validate_carrier carrier.code with
                | .error m => .error m
                | .ok _ =>
                  match validate_disaster disaster.category disaster.sub_category
                      disaster.indicator with
                  | .error m => .error m
                  | .ok _ =>
                    .ok { id := encoded_id
                          event := event
                          source := source
                          carrier := carrier
                          disaster := disaster
                          names := some { source := source_name
                                          carrier := carrier_name
                                          disaster_category := disaster_names.category
                                          disaster_sub_category := disaster_names.sub_category
                                          indicator := disaster_names.indicator } }

/-- Modelled from the spec: `build_event_info` of the location-code variant
(spec §4.3): normalise the caller timestamp with `_format_time_code` and
construct the validated event record. -/
def build_event_info_loc (location_code time_str : String) : Except String EventInfoLoc := do
  let time_code ← format_time_code time_str
  mkEventInfoLocE location_code time_code

/-! ### Arithmetic facts about the digit primitives -/

theorem digitVal_lt_ten {c : Char} (h : isDigitChar c = true) : digitVal c < 10 := by
  simp [isDigitChar] at h
  simp [digitVal]
  omega

theorem digitsVal_foldl (cs : List Char) (a : Nat) :
    cs.foldl (fun a c => 10 * a + digitVal c) a = a * 10 ^ cs.length + digitsVal cs := by
  induction cs generalizing a with
  | nil => simp [digitsVal]
  | cons c cs ih =>
    simp only [List.foldl_cons, List.length_cons, digitsVal]
    rw [ih (10 * a + digitVal c), ih (10 * 0 + digitVal c)]
    ring

theorem digitsVal_append (xs ys : List Char) :
    digitsVal (xs ++ ys) = digitsVal xs * 10 ^ ys.length + digitsVal ys := by
  simp only [digitsVal, List.foldl_append]
  rw [digitsVal_foldl ys (List.foldl (fun a c => 10 * a + digitVal c) 0 xs)]
  rfl

theorem digitsVal_cons (c : Char) (cs : List Char) :
    digitsVal (c :: cs) = digitVal c * 10 ^ cs.length + digitsVal cs := by
  have h := digitsVal_append [c] cs
  simpa [digitsVal] using h

theorem digitsVal_lt (cs : List Char) (h : cs.all isDigitChar = true) :
    digitsVal cs < 10 ^ cs.length := by
  induction cs with
  | nil => simp [digitsVal]
  | cons c cs ih =>
    simp only [List.all_cons, Bool.and_eq_true] at h
    have hc := digitVal_lt_ten h.1
    have hcs := ih h.2
    rw [digitsVal_cons]
    have : 10 ^ (c :: cs).length = 10 * 10 ^ cs.length := by
      simp [List.length_cons, pow_succ]; ring
    rw [this]
    nlinarith

theorem digitsVal_replicate_zero (k : Nat) : digitsVal (List.replicate k '0') = 0 := by
  induction k with
  | zero => simp [digitsVal]
  | succ k ih =>
    rw [List.replicate_succ, digitsVal_cons, ih]
    simp [digitVal]

theorem digitsVal_leftPadZeros (w : Nat) (cs : List Char) :
    digitsVal (leftPadZeros w cs) = digitsVal cs := by
  rw [leftPadZeros, digitsVal_append, digitsVal_replicate_zero]
  simp

theorem leftPadZeros_length {w : Nat} {cs : List Char} (h : cs.length ≤ w) :
    (leftPadZeros w cs).length = w := by
  simp [leftPadZeros]
  omega

theorem leftPadZeros_all_digits {w : Nat} {cs : List Char}
    (h : cs.all isDigitChar = true) : (leftPadZeros w cs).all isDigitChar = true := by
  simp only [leftPadZeros, List.all_append, Bool.and_eq_true]
  refine ⟨?_, h⟩
  rw [List.all_eq_true]
  intro c hc
  rw [List.eq_of_mem_replicate hc]
  decide

theorem digitVal_digitChar {n : Nat} (h : n < 10) : digitVal (digitChar n) = n := by
  interval_cases n <;> decide

theorem isDigitChar_digitChar {n : Nat} (h : n < 10) : isDigitChar (digitChar n) = true := by
  interval_cases n <;> decide

theorem natDigitsAux_all_digits (fuel n : Nat) :
    (natDigitsAux fuel n).all isDigitChar = true := by
  induction fuel generalizing n with
  | zero => simp [natDigitsAux]
  | succ fuel ih =>
    rw [natDigitsAux]
    split
    · next h => simp [isDigitChar_digitChar h]
    · next h =>
      simp only [List.all_append, Bool.and_eq_true]
      exact ⟨ih (n / 10), by simp [isDigitChar_digitChar (Nat.mod_lt n (by omega))]⟩

theorem natDigitsAux_val (fuel : Nat) : ∀ n : Nat, n < 10 ^ fuel →
    digitsVal (natDigitsAux fuel n) = n := by
  induction fuel with
  | zero =>
    intro n h
    simp at h
    simp [natDigitsAux, h, digitsVal]
  | succ fuel ih =>
    intro n h
    rw [natDigitsAux]
    split
    · next hlt =>
      rw [digitsVal_cons]
      simp [digitsVal, digitVal_digitChar hlt]
    · next hge =>
      rw [digitsVal_append]
      have hdiv : n / 10 < 10 ^ fuel := by
        rw [Nat.div_lt_iff_lt_mul (by omega)]
        calc n < 10 ^ (fuel + 1) := h
        _ = 10 ^ fuel * 10 := by rw [pow_succ]
      rw [ih (n / 10) hdiv]
      simp [digitsVal, digitVal_digitChar (Nat.mod_lt n (show 0 < 10 by omega))]
      omega

theorem natDigitsAux_length_le (fuel : Nat) : ∀ n k : Nat, 1 ≤ k → n < 10 ^ k →
    (natDigitsAux fuel n).length ≤ k := by
  induction fuel with
  | zero => intro n k hk _; simp [natDigitsAux]
  | succ fuel ih =>
    intro n k hk h
    rw [natDigitsAux]
    split
    · next hlt => simpa using hk
    · next hge =>
      push_neg at hge
      have hk2 : 2 ≤ k := by
        by_contra hcon
        push_neg at hcon
        interval_cases k
        · simp at h; omega
      have hdiv : n / 10 < 10 ^ (k - 1) := by
        rw [Nat.div_lt_iff_lt_mul (by omega)]
        calc n < 10 ^ k := h
        _ = 10 ^ (k - 1) * 10 := by
              rw [← pow_succ]
              congr 1
              omega
      have := ih (n / 10) (k - 1) (by omega) hdiv
      simp only [List.length_append, List.length_cons, List.length_nil]
      omega

theorem natDigitsAux_ne_nil {fuel n : Nat} (h : 1 ≤ fuel) :
    natDigitsAux fuel n ≠ [] := by
  match fuel, h with
  | fuel + 1, _ =>
    rw [natDigitsAux]
    split
    · simp
    · simp

theorem natToDigits_all_digits (n : Nat) : (natToDigits n).all isDigitChar = true :=
  natDigitsAux_all_digits 40 n

theorem natToDigits_val {n : Nat} (h : n < 10 ^ 40) : digitsVal (natToDigits n) = n :=
  natDigitsAux_val 40 n h

theorem natToDigits_length_le {n k : Nat} (hk : 1 ≤ k) (h : n < 10 ^ k) :
    (natToDigits n).length ≤ k :=
  natDigitsAux_length_le 40 n k hk h

theorem natToDigits_ne_nil (n : Nat) : natToDigits n ≠ [] :=
  natDigitsAux_ne_nil (by omega)

theorem natToDigits_length_ge_two {n : Nat} (h : 10 ≤ n) :
    2 ≤ (natToDigits n).length := by
  rw [natToDigits]
  rw [show (40 : Nat) = 39 + 1 from rfl, natDigitsAux, if_neg (by omega)]
  have hne := @natDigitsAux_ne_nil 39 (n / 10) (by omega)
  have hpos : 1 ≤ (natDigitsAux 39 (n / 10)).length := List.length_pos.mpr hne
  simp [List.length_append]
  omega

theorem intToStr_data_nonneg {v : Int} (h : 0 ≤ v) :
    (intToStr v).data = natToDigits v.toNat := by
  rw [intToStr, if_neg (by omega)]

theorem intToStr_data_neg {v : Int} (h : v < 0) :
    (intToStr v).data = '-' :: natToDigits v.natAbs := by
  rw [intToStr, if_pos h]

theorem pyInt_intToStr {v : Int} (h : v.natAbs < 10 ^ 40) :
    pyInt (intToStr v) = some v := by
  rcases Int.lt_or_le v 0 with hneg | hpos
  · rw [pyInt, intToStr_data_neg hneg, pyIntAux]
    rw [if_pos rfl]
    rw [if_pos ⟨natToDigits_ne_nil _, natToDigits_all_digits _⟩]
    congr 1
    rw [natToDigits_val h]
    omega
  · have hAbs : v.toNat < 10 ^ 40 := by omega
    rw [pyInt]
    have hdata := intToStr_data_nonneg hpos
    obtain ⟨c, cs, hcons⟩ : ∃ c cs, natToDigits v.toNat = c :: cs := by
      cases hn : natToDigits v.toNat with
      | nil => exact absurd hn (natToDigits_ne_nil _)
      | cons c cs => exact ⟨c, cs, rfl⟩
    rw [hdata, hcons, pyIntAux]
    have hall : (c :: cs).all isDigitChar = true := by
      rw [← hcons]; exact natToDigits_all_digits _
    have hc : isDigitChar c = true := by
      simp [List.all_cons] at hall
      exact hall.1
    have hcneg : c ≠ '-' := by
      intro hEq
      rw [hEq] at hc
      simp [isDigitChar] at hc
    have hcplus : c ≠ '+' := by
      intro hEq
      rw [hEq] at hc
      simp [isDigitChar] at hc
    rw [if_neg hcneg, if_neg hcplus, if_pos hall]
    congr 1
    rw [← hcons, natToDigits_val hAbs]
    omega

/-! ### Generic helpers for the proofs -/

theorem except_bind_ok {ε α β : Type} {x : Except ε α} {f : α → Except ε β} {b : β}
    (h : (x >>= f) = .ok b) : ∃ a, x = .ok a ∧ f a = .ok b := by
  cases x with
  | error e => simp [Bind.bind, Except.bind] at h
  | ok a => exact ⟨a, rfl, by simpa [Bind.bind, Except.bind] using h⟩

theorem strLen_append (s t : String) : strLen (s ++ t) = strLen s + strLen t := by
  simp [strLen, String.data_append]

theorem pySlice_concat (pre mid post : List Char) (a b : Nat)
    (ha : pre.length = a) (hb : b = a + mid.length) :
    pySlice ⟨pre ++ (mid ++ post)⟩ a b = ⟨mid⟩ := by
  apply String.ext
  show ((pre ++ (mid ++ post)).drop a).take (b - a) = mid
  subst ha
  rw [List.drop_left]
  have : b - pre.length = mid.length := by omega
  rw [this, List.take_left]

theorem pySlice_concat_end (pre mid : List Char) (a b : Nat)
    (ha : pre.length = a) (hb : b = a + mid.length) :
    pySlice ⟨pre ++ mid⟩ a b = ⟨mid⟩ := by
  apply String.ext
  show ((pre ++ mid).drop a).take (b - a) = mid
  subst ha
  rw [List.drop_left]
  have : b - pre.length = mid.length := by omega
  rw [this, List.take_length]

theorem split_id_slices (s : String) (h : strLen s = 36) :
    split_id s = ((pySlice s 0 6, pySlice s 6 12, pySlice s 12 26),
      pySlice s 26 29, pySlice s 29 30,
      (pySlice s 30 31, pySlice s 31 33, pySlice s 33 36)) := by
  have hd : s.data.length = 36 := h
  have h26 : strLen (pySlice s 0 26) = 26 := by
    simp [pySlice, strLen, hd]
  unfold split_id EVENT_CODE_LEN SOURCE_CODE_LEN CARRIER_CODE_LEN DISASTER_CODE_LEN
  dsimp only
  rw [h26]
  simp only [Prod.mk.injEq]
  refine ⟨⟨?_, ?_, ?_⟩, ?_, ?_, ?_, ?_, ?_⟩ <;>
    first
    | trivial
    | (apply String.ext
       simp [pySlice, List.take_take, List.drop_take, List.drop_drop])

theorem pyZeroPad_spec {v : Int} (h0 : 0 ≤ v) (hlt : v < 1000000) :
    (pyZeroPad 6 v).length = 6 ∧ (pyZeroPad 6 v).all isDigitChar = true ∧
    digitsVal (pyZeroPad 6 v) = v.toNat := by
  rw [pyZeroPad, if_neg (by omega)]
  have h6 : (10 : Nat) ^ 6 = 1000000 := by norm_num
  have hb : v.toNat < 10 ^ 6 := by omega
  have hlen : (natToDigits v.toNat).length ≤ 6 := natToDigits_length_le (by omega) hb
  refine ⟨leftPadZeros_length hlen, leftPadZeros_all_digits (natToDigits_all_digits _), ?_⟩
  rw [digitsVal_leftPadZeros]
  exact natToDigits_val (lt_of_lt_of_le hb (Nat.pow_le_pow_right (by omega) (by omega)))

theorem natDigitsAux_length_ge : ∀ k fuel n : Nat, k < fuel → 10 ^ k ≤ n →
    k + 1 ≤ (natDigitsAux fuel n).length := by
  intro k
  induction k with
  | zero =>
    intro fuel n hf _
    match fuel, hf with
    | f + 1, _ =>
      rw [natDigitsAux]
      split
      · simp
      · simp [List.length_append]
  | succ k ih =>
    intro fuel n hf hn
    match fuel, hf with
    | f + 1, _ =>
      have h10' : (10 : Nat) ≤ 10 ^ (k + 1) := by
        calc (10 : Nat) = 10 ^ 1 := by norm_num
        _ ≤ 10 ^ (k + 1) := Nat.pow_le_pow_right (by omega) (by omega)
      have h10 : 10 ≤ n := le_trans h10' hn
      rw [natDigitsAux, if_neg (by omega)]
      have hdiv : 10 ^ k ≤ n / 10 := by
        rw [Nat.le_div_iff_mul_le (by omega)]
        calc 10 ^ k * 10 = 10 ^ (k + 1) := (pow_succ 10 k).symm
        _ ≤ n := hn
      have := ih f (n / 10) (by omega) hdiv
      simp [List.length_append]
      omega

theorem strLen_intToStr_le {v : Int} (h : v.natAbs < 10 ^ 7) : strLen (intToStr v) ≤ 8 := by
  rcases Int.lt_or_le v 0 with hneg | hpos
  · rw [strLen, intToStr_data_neg hneg]
    have := natToDigits_length_le (n := v.natAbs) (k := 7) (by omega) h
    simp [List.length_cons]
    omega
  · rw [strLen, intToStr_data_nonneg hpos]
    have : v.toNat < 10 ^ 7 := by omega
    have := natToDigits_length_le (n := v.toNat) (k := 7) (by omega) this
    omega

theorem strLen_intToStr_ge_two {v : Int} (h : v < 0 ∨ 10 ≤ v) : 2 ≤ strLen (intToStr v) := by
  rcases h with hneg | hge
  · rw [strLen, intToStr_data_neg hneg]
    have := natToDigits_ne_nil v.natAbs
    have := List.length_pos.mpr this
    simp [List.length_cons]
    omega
  · rw [strLen, intToStr_data_nonneg (by omega)]
    exact natToDigits_length_ge_two (by omega)

theorem natAbs_lt_of_strLen_intToStr_le {v : Int} (h : strLen (intToStr v) ≤ 8) :
    v.natAbs < 10 ^ 8 := by
  by_contra hcon
  push_neg at hcon
  have hlen : 9 ≤ (natToDigits v.natAbs).length :=
    natDigitsAux_length_ge 8 40 v.natAbs (by omega) hcon
  rcases Int.lt_or_le v 0 with hneg | hpos
  · rw [strLen, intToStr_data_neg hneg] at h
    simp [List.length_cons] at h
    omega
  · rw [strLen, intToStr_data_nonneg hpos] at h
    have : v.natAbs = v.toNat := by omega
    rw [this] at hlen
    omega

theorem mkEventInfoE_ok {lat lng time : String} {e : EventInfo}
    (h : mkEventInfoE lat lng time = .ok e) :
    e = ⟨lat, lng, time⟩ ∧ 2 ≤ strLen lat ∧ strLen lat ≤ 8 ∧
      (∃ v, pyInt lat = some v ∧ -90000 ≤ v ∧ v ≤ 90000) ∧
      2 ≤ strLen lng ∧ strLen lng ≤ 8 ∧
      (∃ v, pyInt lng = some v ∧ -180000 ≤ v ∧ v ≤ 180000) ∧
      strLen time = 14 ∧ pyIsdigit time = true := by
  unfold mkEventInfoE at h
  by_cases h1 : strLen lat < 2 ∨ 8 < strLen lat
  · rw [if_pos h1] at h; exact absurd h (by simp)
  · rw [if_neg h1] at h
    push_neg at h1
    cases hlat : pyInt lat with
    | none => rw [hlat] at h; exact absurd h (by simp)
    | some vlat =>
      rw [hlat] at h
      dsimp only at h
      by_cases h2 : vlat < -90000 ∨ 90000 < vlat
      · rw [if_pos h2] at h; exact absurd h (by simp)
      · rw [if_neg h2] at h
        push_neg at h2
        by_cases h3 : strLen lng < 2 ∨ 8 < strLen lng
        · rw [if_pos h3] at h; exact absurd h (by simp)
        · rw [if_neg h3] at h
          push_neg at h3
          cases hlng : pyInt lng with
          | none => rw [hlng] at h; exact absurd h (by simp)
          | some vlng =>
            rw [hlng] at h
            dsimp only at h
            by_cases h4 : vlng < -180000 ∨ 180000 < vlng
            · rw [if_pos h4] at h; exact absurd h (by simp)
            · rw [if_neg h4] at h
              push_neg at h4
              by_cases h5 : strLen time ≠ 14
              · rw [if_pos h5] at h; exact absurd h (by simp)
              · rw [if_neg h5] at h
                push_neg at h5
                by_cases h6 : ¬ pyIsdigit time = true
                · rw [if_pos h6] at h; exact absurd h (by simp)
                · rw [if_neg h6] at h
                  push_neg at h6
                  have he : e = ⟨lat, lng, time⟩ := by
                    cases h; rfl
                  exact ⟨he, h1.1, h1.2, ⟨vlat, rfl, by omega, by omega⟩,
                    h3.1, h3.2, ⟨vlng, rfl, by omega, by omega⟩, h5, h6⟩

theorem mkEventInfoE_eq_ok {lat lng time : String} {vlat vlng : Int}
    (hl1 : 2 ≤ strLen lat) (hl2 : strLen lat ≤ 8)
    (hlv : pyInt lat = some vlat) (hlr1 : -90000 ≤ vlat) (hlr2 : vlat ≤ 90000)
    (hg1 : 2 ≤ strLen lng) (hg2 : strLen lng ≤ 8)
    (hgv : pyInt lng = some vlng) (hgr1 : -180000 ≤ vlng) (hgr2 : vlng ≤ 180000)
    (ht1 : strLen time = 14) (ht2 : pyIsdigit time = true) :
    mkEventInfoE lat lng time = .ok ⟨lat, lng, time⟩ := by
  unfold mkEventInfoE
  rw [if_neg (by omega), hlv]
  dsimp only
  rw [if_neg (by omega), if_neg (by omega), hgv]
  dsimp only
  rw [if_neg (by omega), if_neg (by omega), if_neg (by simp [ht2])]

theorem mkSourceInfoE_ok {code : String} {s : SourceInfo}
    (h : mkSourceInfoE code = .ok s) : s = ⟨code⟩ ∧ strLen code = 3 := by
  unfold mkSourceInfoE at h
  by_cases h1 : strLen code ≠ 3
  · rw [if_pos h1] at h; exact absurd h (by simp)
  · rw [if_neg h1] at h
    push_neg at h1
    cases h
    exact ⟨rfl, h1⟩

theorem mkCarrierInfoE_ok {code : String} {c : CarrierInfo}
    (h : mkCarrierInfoE code = .ok c) : c = ⟨code⟩ ∧ strLen code = 1 := by
  unfold mkCarrierInfoE at h
  by_cases h1 : strLen code ≠ 1
  · rw [if_pos h1] at h; exact absurd h (by simp)
  · rw [if_neg h1] at h
    push_neg at h1
    cases h
    exact ⟨rfl, h1⟩

theorem mkDisasterInfoE_ok {cat sub ind : String} {d : DisasterInfo}
    (h : mkDisasterInfoE cat sub ind = .ok d) :
    d = ⟨cat, sub, ind⟩ ∧ strLen cat = 1 ∧ strLen sub = 2 ∧ strLen ind = 3 := by
  unfold mkDisasterInfoE at h
  by_cases h1 : strLen cat ≠ 1
  · rw [if_pos h1] at h; exact absurd h (by simp)
  · rw [if_neg h1] at h
    push_neg at h1
    by_cases h2 : strLen sub ≠ 2
    · rw [if_pos h2] at h; exact absurd h (by simp)
    · rw [if_neg h2] at h
      push_neg at h2
      by_cases h3 : strLen ind ≠ 3
      · rw [if_pos h3] at h; exact absurd h (by simp)
      · rw [if_neg h3] at h
        push_neg at h3
        cases h
        exact ⟨rfl, h1, h2, h3⟩

theorem format_coord_ok {code field : String} {w : Nat} {min_val max_val : Int} {s : String}
    (h : format_coord code w field min_val max_val = .ok s) :
    ∃ v, pyInt code = some v ∧ min_val ≤ v ∧ v ≤ max_val ∧
      s = ⟨pyZeroPad w (v + (if field = "lat_code" then 90000 else 180000))⟩ := by
  unfold format_coord at h
  cases hv : pyInt code with
  | none => rw [hv] at h; exact absurd h (by simp)
  | some v =>
    rw [hv] at h
    dsimp only at h
    by_cases h1 : v < min_val ∨ max_val < v
    · rw [if_pos h1] at h; exact absurd h (by simp)
    · rw [if_neg h1] at h
      push_neg at h1
      cases h
      exact ⟨v, rfl, h1.1, h1.2, rfl⟩

theorem format_coord_eq_ok {code field : String} {w : Nat} {min_val max_val v : Int}
    (hv : pyInt code = some v) (h1 : min_val ≤ v) (h2 : v ≤ max_val) :
    format_coord code w field min_val max_val =
      .ok ⟨pyZeroPad w (v + (if field = "lat_code" then 90000 else 180000))⟩ := by
  unfold format_coord
  rw [hv]
  dsimp only
  rw [if_neg (by omega)]

theorem ensure_numeric_ok {s field : String} {w : Nat}
    (h : ensure_numeric s w field = .ok ()) : strLen s = w ∧ pyIsdigit s = true := by
  unfold ensure_numeric at h
  by_cases h1 : strLen s ≠ w
  · rw [if_pos h1] at h; exact absurd h (by simp)
  · rw [if_neg h1] at h
    push_neg at h1
    by_cases h2 : ¬ pyIsdigit s = true
    · rw [if_pos h2] at h; exact absurd h (by simp)
    · push_neg at h2
      exact ⟨h1, h2⟩

theorem ensure_numeric_eq_ok {s field : String} {w : Nat}
    (h1 : strLen s = w) (h2 : pyIsdigit s = true) :
    ensure_numeric s w field = .ok () := by
  unfold ensure_numeric
  rw [if_neg (by omega), if_neg (by simp [h2])]

theorem get_source_name_eq_ok {code : String} (h1 : strLen code = 3)
    (h2 : pyIsdigit code = true) :
    get_source_name code = .ok (SOURCE_DICT (pySlice code 0 1) (pySlice code 1 3)) := by
  unfold get_source_name
  rw [if_neg (by simp [h1, h2])]

theorem validate_source_ok {code : String} (h : validate_source code = .ok ()) :
    ∃ a, get_source_name code = .ok (some a) := by
  unfold validate_source at h
  obtain ⟨n, hn, hrest⟩ := except_bind_ok h
  cases n with
  | none => simp at hrest
  | some a => exact ⟨a, hn⟩

theorem validate_carrier_ok {code : String} (h : validate_carrier code = .ok ()) :
    ∃ a, get_carrier_name code = some a := by
  unfold validate_carrier at h
  by_cases h1 : get_carrier_name code = none
  · rw [if_pos h1] at h; exact absurd h (by simp)
  · cases hc : get_carrier_name code with
    | none => exact absurd hc h1
    | some a => exact ⟨a, rfl⟩

theorem validate_disaster_ok {cat sub ind : String}
    (h : validate_disaster cat sub ind = .ok ()) :
    (∃ a, DISASTER_CATEGORY_DICT cat sub = some a) ∧
      (∃ a, DISASTER_INDICATOR_DICT cat sub ind = some a) := by
  unfold validate_disaster at h
  by_cases h1 : (get_disaster_names cat sub ind).category = none ∨
      (get_disaster_names cat sub ind).indicator = none
  · rw [if_pos h1] at h; exact absurd h (by simp)
  · push_neg at h1
    have hc := h1.1
    have hi := h1.2
    unfold get_disaster_names at hc hi
    simp only at hc hi
    exact ⟨Option.ne_none_iff_exists'.mp hc, Option.ne_none_iff_exists'.mp hi⟩

theorem pyIsdigit_iff (s : String) :
    pyIsdigit s = true ↔ s.data ≠ [] ∧ s.data.all isDigitChar = true := by
  simp [pyIsdigit, List.isEmpty_iff]

theorem strLen_pySlice (s : String) (a b : Nat) :
    strLen (pySlice s a b) = min (b - a) (strLen s - a) := by
  simp [pySlice, strLen]

theorem pySlice_all_digits {s : String} (h : s.data.all isDigitChar = true) (a b : Nat) :
    (pySlice s a b).data.all isDigitChar = true := by
  rw [List.all_eq_true] at h ⊢
  intro c hc
  exact h c (List.mem_of_mem_drop (List.mem_of_mem_take hc))

theorem pyIsdigit_pySlice {s : String} (hdig : pyIsdigit s = true) {a b : Nat}
    (hlen : 0 < strLen (pySlice s a b)) : pyIsdigit (pySlice s a b) = true := by
  rw [pyIsdigit_iff]
  refine ⟨?_, pySlice_all_digits ((pyIsdigit_iff s).mp hdig).2 a b⟩
  intro hnil
  rw [strLen] at hlen
  rw [hnil] at hlen
  simp at hlen

theorem encode_disaster_ok {e : EventInfo} {s : SourceInfo} {c : CarrierInfo}
    {d : DisasterInfo} {id : String} (h : encode_disaster e s c d = .ok id) :
    validate_source s.code = .ok () ∧ validate_carrier c.code = .ok () ∧
    validate_disaster d.category d.sub_category d.indicator = .ok () ∧
    ∃ vlat vlng : Int,
      pyInt e.lat_code = some vlat ∧ -90000 ≤ vlat ∧ vlat ≤ 90000 ∧
      pyInt e.lng_code = some vlng ∧ -180000 ≤ vlng ∧ vlng ≤ 180000 ∧
      strLen s.code = 3 ∧ pyIsdigit s.code = true ∧
      strLen c.code = 1 ∧ pyIsdigit c.code = true ∧
      strLen d.category = 1 ∧ pyIsdigit d.category = true ∧
      strLen d.sub_category = 2 ∧ pyIsdigit d.sub_category = true ∧
      strLen d.indicator = 3 ∧ pyIsdigit d.indicator = true ∧
      id = ⟨pyZeroPad 6 (vlat + 90000)⟩ ++ ⟨pyZeroPad 6 (vlng + 180000)⟩ ++ e.time_code ++
        s.code ++ c.code ++ d.category ++ d.sub_category ++ d.indicator ∧
      strLen id = 36 := by
  unfold encode_disaster at h
  obtain ⟨u1, hv1, h⟩ := except_bind_ok h
  obtain ⟨u2, hv2, h⟩ := except_bind_ok h
  obtain ⟨u3, hv3, h⟩ := except_bind_ok h
  obtain ⟨latf, hlatf, h⟩ := except_bind_ok h
  obtain ⟨lngf, hlngf, h⟩ := except_bind_ok h
  obtain ⟨u4, hen1, h⟩ := except_bind_ok h
  obtain ⟨u5, hen2, h⟩ := except_bind_ok h
  obtain ⟨u6, hen3, h⟩ := except_bind_ok h
  obtain ⟨u7, hen4, h⟩ := except_bind_ok h
  obtain ⟨u8, hen5, h⟩ := except_bind_ok h
  cases u1; cases u2; cases u3; cases u4; cases u5; cases u6; cases u7; cases u8
  obtain ⟨vlat, hplat, hlr1, hlr2, hlatf_eq⟩ := format_coord_ok hlatf
  obtain ⟨vlng, hplng, hgr1, hgr2, hlngf_eq⟩ := format_coord_ok hlngf
  rw [if_pos rfl] at hlatf_eq
  rw [if_neg (by decide)] at hlngf_eq
  obtain ⟨hsl, hsd⟩ := ensure_numeric_ok hen1
  obtain ⟨hcl, hcd⟩ := ensure_numeric_ok hen2
  obtain ⟨hdl1, hdd1⟩ := ensure_numeric_ok hen3
  obtain ⟨hdl2, hdd2⟩ := ensure_numeric_ok hen4
  obtain ⟨hdl3, hdd3⟩ := ensure_numeric_ok hen5
  dsimp only at h
  by_cases hfin : strLen (latf ++ lngf ++ e.time_code ++ s.code ++ c.code ++
      (d.category ++ d.sub_category ++ d.indicator)) ≠ ID_TOTAL_LENGTH
  · rw [if_pos hfin] at h
    exact absurd h (by simp)
  · rw [if_neg hfin] at h
    push_neg at hfin
    have hid : id = latf ++ lngf ++ e.time_code ++ s.code ++ c.code ++
        (d.category ++ d.sub_category ++ d.indicator) := by
      cases h; rfl
    subst hlatf_eq hlngf_eq
    refine ⟨hv1, hv2, hv3, vlat, vlng, hplat, hlr1, hlr2, hplng, hgr1, hgr2,
      hsl, hsd, hcl, hcd, hdl1, hdd1, hdl2, hdd2, hdl3, hdd3, ?_, ?_⟩
    · rw [hid]
      apply String.ext
      simp [String.data_append]
    · rw [hid, hfin]
      rfl

theorem decode_disaster_eq_ok {l1 l2 l3 l4 l5 l6 l7 l8 : List Char} {ev : EventInfo}
    (h1 : l1.length = 6) (h2 : l2.length = 6) (h3 : l3.length = 14)
    (h4 : l4.length = 3) (h5 : l5.length = 1) (h6 : l6.length = 1)
    (h7 : l7.length = 2) (h8 : l8.length = 3)
    (hdig : (l1 ++ l2 ++ l3 ++ l4 ++ l5 ++ l6 ++ l7 ++ l8).all isDigitChar = true)
    (hev : mkEventInfoE (intToStr (decode_lat_int ⟨l1⟩)) (intToStr (decode_lng_int ⟨l2⟩))
      ⟨l3⟩ = .ok ev)
    (hvs : validate_source ⟨l4⟩ = .ok ())
    (hvc : validate_carrier ⟨l5⟩ = .ok ())
    (hvd : validate_disaster ⟨l6⟩ ⟨l7⟩ ⟨l8⟩ = .ok ()) :
    decode_disaster ⟨l1 ++ l2 ++ l3 ++ l4 ++ l5 ++ l6 ++ l7 ++ l8⟩ =
      .ok { id := ⟨l1 ++ l2 ++ l3 ++ l4 ++ l5 ++ l6 ++ l7 ++ l8⟩
            event := ev
            source := ⟨⟨l4⟩⟩
            carrier := ⟨⟨l5⟩⟩
            disaster := ⟨⟨l6⟩, ⟨l7⟩, ⟨l8⟩⟩
            names := some
              { source := SOURCE_DICT (pySlice ⟨l4⟩ 0 1) (pySlice ⟨l4⟩ 1 3)
                carrier := get_carrier_name ⟨l5⟩
                disaster_category := (get_disaster_names ⟨l6⟩ ⟨l7⟩ ⟨l8⟩).category
                disaster_sub_category := (get_disaster_names ⟨l6⟩ ⟨l7⟩ ⟨l8⟩).sub_category
                indicator := (get_disaster_names ⟨l6⟩ ⟨l7⟩ ⟨l8⟩).indicator } } := by
  set s : String := ⟨l1 ++ l2 ++ l3 ++ l4 ++ l5 ++ l6 ++ l7 ++ l8⟩ with hs
  have hsdata : s.data = l1 ++ l2 ++ l3 ++ l4 ++ l5 ++ l6 ++ l7 ++ l8 := rfl
  have hlen : strLen s = 36 := by
    rw [strLen, hsdata]
    simp [List.length_append, h1, h2, h3, h4, h5, h6, h7, h8]
  have e1 : pySlice s 0 6 = ⟨l1⟩ := by
    have : s = ⟨[] ++ (l1 ++ (l2 ++ l3 ++ l4 ++ l5 ++ l6 ++ l7 ++ l8))⟩ := by
      apply String.ext; rw [hsdata]; try simp
    rw [this]
    exact pySlice_concat _ _ _ _ _ (by simp) (by simp [h1])
  have e2 : pySlice s 6 12 = ⟨l2⟩ := by
    have : s = ⟨l1 ++ (l2 ++ (l3 ++ l4 ++ l5 ++ l6 ++ l7 ++ l8))⟩ := by
      apply String.ext; rw [hsdata]; try simp
    rw [this]
    exact pySlice_concat _ _ _ _ _ (by simp [h1]) (by simp [h1, h2])
  have e3 : pySlice s 12 26 = ⟨l3⟩ := by
    have : s = ⟨(l1 ++ l2) ++ (l3 ++ (l4 ++ l5 ++ l6 ++ l7 ++ l8))⟩ := by
      apply String.ext; rw [hsdata]; try simp
    rw [this]
    exact pySlice_concat _ _ _ _ _ (by simp [h1, h2]) (by simp [h1, h2, h3])
  have e4 : pySlice s 26 29 = ⟨l4⟩ := by
    have : s = ⟨(l1 ++ l2 ++ l3) ++ (l4 ++ (l5 ++ l6 ++ l7 ++ l8))⟩ := by
      apply String.ext; rw [hsdata]; try simp
    rw [this]
    exact pySlice_concat _ _ _ _ _ (by simp [h1, h2, h3]) (by simp [h1, h2, h3, h4])
  have e5 : pySlice s 29 30 = ⟨l5⟩ := by
    have : s = ⟨(l1 ++ l2 ++ l3 ++ l4) ++ (l5 ++ (l6 ++ l7 ++ l8))⟩ := by
      apply String.ext; rw [hsdata]; try simp
    rw [this]
    exact pySlice_concat _ _ _ _ _ (by simp [h1, h2, h3, h4])
      (by simp [h1, h2, h3, h4, h5])
  have e6 : pySlice s 30 31 = ⟨l6⟩ := by
    have : s = ⟨(l1 ++ l2 ++ l3 ++ l4 ++ l5) ++ (l6 ++ (l7 ++ l8))⟩ := by
      apply String.ext; rw [hsdata]; try simp
    rw [this]
    exact pySlice_concat _ _ _ _ _ (by simp [h1, h2, h3, h4, h5])
      (by simp [h1, h2, h3, h4, h5, h6])
  have e7 : pySlice s 31 33 = ⟨l7⟩ := by
    have : s = ⟨(l1 ++ l2 ++ l3 ++ l4 ++ l5 ++ l6) ++ (l7 ++ l8)⟩ := by
      apply String.ext; rw [hsdata]; try simp
    rw [this]
    exact pySlice_concat _ _ _ _ _ (by simp [h1, h2, h3, h4, h5, h6])
      (by simp [h1, h2, h3, h4, h5, h6, h7])
  have e8 : pySlice s 33 36 = ⟨l8⟩ := by
    have : s = ⟨(l1 ++ l2 ++ l3 ++ l4 ++ l5 ++ l6 ++ l7) ++ l8⟩ := by
      apply String.ext; rw [hsdata]; try simp
    rw [this]
    exact pySlice_concat_end _ _ _ _ (by simp [h1, h2, h3, h4, h5, h6, h7])
      (by simp [h1, h2, h3, h4, h5, h6, h7, h8])
  have hdig' : pyIsdigit s = true := by
    rw [pyIsdigit_iff]
    constructor
    · rw [hsdata]
      intro hnil
      have := congrArg List.length hnil
      simp [List.length_append, h1] at this
    · rw [hsdata]
      simpa using hdig
  have hs4len : strLen (pySlice s 26 29) = 3 := by rw [e4]; exact h4
  have hs4dig : pyIsdigit (pySlice s 26 29) = true := by
    apply pyIsdigit_pySlice hdig'
    omega
  unfold decode_disaster
  rw [if_neg (by simp [hlen, ID_TOTAL_LENGTH]), if_neg (by simp [hdig']),
    split_id_slices s hlen]
  dsimp only
  rw [e1, e2, e3, e4, e5, e6, e7, e8, hev]
  dsimp only
  have hsrc : mkSourceInfoE (⟨l4⟩ : String) = .ok ⟨⟨l4⟩⟩ := by
    unfold mkSourceInfoE
    rw [if_neg (by simp [strLen, h4])]
  have hcar : mkCarrierInfoE (⟨l5⟩ : String) = .ok ⟨⟨l5⟩⟩ := by
    unfold mkCarrierInfoE
    rw [if_neg (by simp [strLen, h5])]
  have hdis : mkDisasterInfoE (⟨l6⟩ : String) ⟨l7⟩ ⟨l8⟩ = .ok ⟨⟨l6⟩, ⟨l7⟩, ⟨l8⟩⟩ := by
    unfold mkDisasterInfoE
    rw [if_neg (by simp [strLen, h6]), if_neg (by simp [strLen, h7]),
      if_neg (by simp [strLen, h8])]
  rw [hsrc]
  dsimp only
  rw [hcar]
  dsimp only
  rw [hdis]
  dsimp only
  have hgs : get_source_name (⟨l4⟩ : String) =
      .ok (SOURCE_DICT (pySlice ⟨l4⟩ 0 1) (pySlice ⟨l4⟩ 1 3)) := by
    apply get_source_name_eq_ok
    · exact h4
    · rw [← e4]; exact hs4dig
  rw [hgs]
  dsimp only
  rw [hvs]
  dsimp only
  rw [hvc]
  dsimp only
  rw [hvd]

theorem decode_disaster_ok_inv {t : String} {r : DecodedRecord}
    (h : decode_disaster t = .ok r) :
    strLen t = 36 ∧ pyIsdigit t = true ∧
    mkEventInfoE (intToStr (decode_lat_int (pySlice t 0 6)))
      (intToStr (decode_lng_int (pySlice t 6 12))) (pySlice t 12 26) = .ok r.event ∧
    r.source = ⟨pySlice t 26 29⟩ ∧ r.carrier = ⟨pySlice t 29 30⟩ ∧
    r.disaster = ⟨pySlice t 30 31, pySlice t 31 33, pySlice t 33 36⟩ ∧
    validate_source (pySlice t 26 29) = .ok () ∧
    validate_carrier (pySlice t 29 30) = .ok () ∧
    validate_disaster (pySlice t 30 31) (pySlice t 31 33) (pySlice t 33 36) = .ok () ∧
    r.id = t ∧
    r.names = some
      { source := SOURCE_DICT (pySlice (pySlice t 26 29) 0 1) (pySlice (pySlice t 26 29) 1 3)
        carrier := get_carrier_name (pySlice t 29 30)
        disaster_category :=
          (get_disaster_names (pySlice t 30 31) (pySlice t 31 33) (pySlice t 33 36)).category
        disaster_sub_category :=
          (get_disaster_names (pySlice t 30 31) (pySlice t 31 33) (pySlice t 33 36)).sub_category
        indicator :=
          (get_disaster_names (pySlice t 30 31) (pySlice t 31 33) (pySlice t 33 36)).indicator } := by
  unfold decode_disaster at h
  by_cases hL : strLen t ≠ ID_TOTAL_LENGTH
  · rw [if_pos hL] at h; exact absurd h (by simp)
  · rw [if_neg hL] at h
    push_neg at hL
    have h36 : strLen t = 36 := hL
    by_cases hD : ¬ pyIsdigit t = true
    · rw [if_pos hD] at h; exact absurd h (by simp)
    · rw [if_neg hD] at h
      push_neg at hD
      rw [split_id_slices t h36] at h
      dsimp only at h
      cases hev : mkEventInfoE (intToStr (decode_lat_int (pySlice t 0 6)))
          (intToStr (decode_lng_int (pySlice t 6 12))) (pySlice t 12 26) with
      | error m => rw [hev] at h; exact absurd h (by simp)
      | ok ev =>
        rw [hev] at h
        dsimp only at h
        cases hsrc : mkSourceInfoE (pySlice t 26 29) with
        | error m => rw [hsrc] at h; exact absurd h (by simp)
        | ok src =>
          rw [hsrc] at h
          obtain ⟨hsrc_eq, hsrc_len⟩ := mkSourceInfoE_ok hsrc
          subst hsrc_eq
          dsimp only at h
          cases hcar : mkCarrierInfoE (pySlice t 29 30) with
          | error m => rw [hcar] at h; exact absurd h (by simp)
          | ok car =>
            rw [hcar] at h
            obtain ⟨hcar_eq, hcar_len⟩ := mkCarrierInfoE_ok hcar
            subst hcar_eq
            dsimp only at h
            cases hdis : mkDisasterInfoE (pySlice t 30 31) (pySlice t 31 33)
                (pySlice t 33 36) with
            | error m => rw [hdis] at h; exact absurd h (by simp)
            | ok dis =>
              rw [hdis] at h
              obtain ⟨hdis_eq, hdl1, hdl2, hdl3⟩ := mkDisasterInfoE_ok hdis
              subst hdis_eq
              dsimp only at h
              cases hgs : get_source_name (pySlice t 26 29) with
              | error m => rw [hgs] at h; exact absurd h (by simp)
              | ok sn =>
                rw [hgs] at h
                dsimp only at h
                cases hvs : validate_source (pySlice t 26 29) with
                | error m => rw [hvs] at h; exact absurd h (by simp)
                | ok u =>
                  cases u
                  rw [hvs] at h
                  dsimp only at h
                  cases hvc : validate_carrier (pySlice t 29 30) with
                  | error m => rw [hvc] at h; exact absurd h (by simp)
                  | ok u =>
                    cases u
                    rw [hvc] at h
                    dsimp only at h
                    cases hvd : validate_disaster (pySlice t 30 31) (pySlice t 31 33)
                        (pySlice t 33 36) with
                    | error m => rw [hvd] at h; exact absurd h (by simp)
                    | ok u =>
                      cases u
                      rw [hvd] at h
                      dsimp only at h
                      have hslen : strLen (pySlice t 26 29) = 3 := by
                        rw [strLen_pySlice]; omega
                      have hsdig : pyIsdigit (pySlice t 26 29) = true := by
                        apply pyIsdigit_pySlice hD
                        rw [strLen_pySlice]; omega
                      have hgs' := get_source_name_eq_ok hslen hsdig
                      rw [hgs] at hgs'
                      have hsn : sn = SOURCE_DICT (pySlice (pySlice t 26 29) 0 1)
                          (pySlice (pySlice t 26 29) 1 3) := by
                        cases hgs'; rfl
                      cases h
                      subst hsn
                      exact ⟨h36, hD, rfl, rfl, rfl, rfl, rfl, rfl, rfl, rfl, rfl⟩

theorem except_bind_er {ε α β : Type} (m : ε) (f : α → Except ε β) :
    ((Except.error m : Except ε α) >>= f) = .error m := rfl

theorem except_bind_pure {ε α β : Type} (a : α) (f : α → Except ε β) :
    ((Except.ok a : Except ε α) >>= f) = f a := rfl

theorem ite_opt_ne {p : Prop} [Decidable p] {a b : Option String}
    (ha : ∀ n, a = some n → n ≠ "") (hb : ∀ n, b = some n → n ≠ "") :
    ∀ n, (if p then a else b) = some n → n ≠ "" := by
  intro n h
  by_cases hp : p
  · rw [if_pos hp] at h; exact ha n h
  · rw [if_neg hp] at h; exact hb n h

theorem some_lit_ne {lit : String} (hlit : lit ≠ "") :
    ∀ n, some lit = some n → n ≠ "" := by
  intro n h
  injection h with h2
  subst h2
  exact hlit

theorem none_ne : ∀ n : String, (none : Option String) = some n → n ≠ "" :=
  fun _ h => Option.noConfusion h

theorem SOURCE_DICT_nonempty {c s n : String} (h : SOURCE_DICT c s = some n) : n ≠ "" := by
  refine (?_ : ∀ n, SOURCE_DICT c s = some n → n ≠ "") n h
  unfold SOURCE_DICT
  repeat
    first
    | exact none_ne
    | exact some_lit_ne (by decide)
    | apply ite_opt_ne

theorem CARRIER_DICT_nonempty {c n : String} (h : CARRIER_DICT c = some n) : n ≠ "" := by
  refine (?_ : ∀ n, CARRIER_DICT c = some n → n ≠ "") n h
  unfold CARRIER_DICT
  repeat
    first
    | exact none_ne
    | exact some_lit_ne (by decide)
    | apply ite_opt_ne

theorem DISASTER_CATEGORY_DICT_nonempty {c s n : String}
    (h : DISASTER_CATEGORY_DICT c s = some n) : n ≠ "" := by
  refine (?_ : ∀ n, DISASTER_CATEGORY_DICT c s = some n → n ≠ "") n h
  unfold DISASTER_CATEGORY_DICT
  repeat
    first
    | exact none_ne
    | exact some_lit_ne (by decide)
    | apply ite_opt_ne

theorem HOUSE_DAMAGE_INDICATORS_nonempty {i n : String}
    (h : HOUSE_DAMAGE_INDICATORS i = some n) : n ≠ "" := by
  refine (?_ : ∀ n, HOUSE_DAMAGE_INDICATORS i = some n → n ≠ "") n h
  unfold HOUSE_DAMAGE_INDICATORS
  repeat
    first
    | exact none_ne
    | exact some_lit_ne (by decide)
    | apply ite_opt_ne

theorem LIFELINE_INDICATORS_nonempty {i n : String}
    (h : LIFELINE_INDICATORS i = some n) : n ≠ "" := by
  refine (?_ : ∀ n, LIFELINE_INDICATORS i = some n → n ≠ "") n h
  unfold LIFELINE_INDICATORS
  repeat
    first
    | exact none_ne
    | exact some_lit_ne (by decide)
    | apply ite_opt_ne

theorem SECONDARY_INDICATORS_nonempty {i n : String}
    (h : SECONDARY_INDICATORS i = some n) : n ≠ "" := by
  refine (?_ : ∀ n, SECONDARY_INDICATORS i = some n → n ≠ "") n h
  unfold SECONDARY_INDICATORS
  repeat
    first
    | exact none_ne
    | exact some_lit_ne (by decide)
    | apply ite_opt_ne

theorem DISASTER_INDICATOR_DICT_nonempty {c s i n : String}
    (h : DISASTER_INDICATOR_DICT c s i = some n) : n ≠ "" := by
  refine (?_ : ∀ n, DISASTER_INDICATOR_DICT c s i = some n → n ≠ "") n h
  unfold DISASTER_INDICATOR_DICT
  repeat
    first
    | exact none_ne
    | exact some_lit_ne (by decide)
    | exact fun n h => HOUSE_DAMAGE_INDICATORS_nonempty h
    | exact fun n h => LIFELINE_INDICATORS_nonempty h
    | exact fun n h => SECONDARY_INDICATORS_nonempty h
    | apply ite_opt_ne

theorem DISASTER_CATEGORY_DICT_nine (s : String) :
    DISASTER_CATEGORY_DICT "9" s = none := rfl

/-- C7: for every category, sub-category and indicator, `get_disaster_names`
fills the `sub_category` slot from the same category→subcategory lookup as
the `category` slot; the sub-category name is never an independent value. -/
theorem C7_sub_category_name_mirrors_category_name :
    ∀ category sub_category indicator : String,
      (get_disaster_names category sub_category indicator).sub_category =
        (get_disaster_names category sub_category indicator).category := by
  intro category sub_category indicator
  rfl

/-- C6: `_format_time_code` maps the ISO-8601 input `2021-05-22T02:04:00Z`
and the compact input `20210522020400` to the identical 14-digit time part,
and fails on every string that neither passes the strict 14-digit calendar
parse nor parses as ISO-8601 (after the `Z` replacement). -/
theorem C6_time_code_normalization :
    format_time_code "2021-05-22T02:04:00Z" = .ok "20210522020400" ∧
    format_time_code "20210522020400" = .ok "20210522020400" ∧
    ∀ s : String, ¬ (strLen s = 14 ∧ pyIsdigit s = true ∧ strptime14_ok s = true) →
      fromisoformat (pyReplaceZ s) = none → exceptOk (format_time_code s) = false := by
  refine ⟨by decide, by decide, ?_⟩
  intro s hno hiso
  unfold format_time_code
  by_cases h : strLen s = 14 ∧ pyIsdigit s = true
  · rw [if_pos h]
    have hst : ¬ strptime14_ok s = true := fun hc => hno ⟨h.1, h.2, hc⟩
    rw [if_neg hst]
    rfl
  · rw [if_neg h, hiso]
    rfl

/-- Witness for C6 at the concrete non-timestamp `notatime`. -/
theorem C6_time_code_normalization_witness :
    exceptOk (format_time_code "notatime") = false :=
  C6_time_code_normalization.2.2 "notatime" (by decide) (by decide)

/-- C2: every latitude in [-90000, 90000] and longitude in [-180000, 180000]
is offset-encoded by `_format_coord` to a 6-digit numeric string, and the
decode-side subtraction recovers the original value. -/
theorem C2_offset_symmetry :
    ∀ lat lng : Int, -90000 ≤ lat → lat ≤ 90000 → -180000 ≤ lng → lng ≤ 180000 →
    ∃ slat slng : String,
      format_coord (intToStr lat) 6 "lat_code" (-90000) 90000 = .ok slat ∧
      format_coord (intToStr lng) 6 "lng_code" (-180000) 180000 = .ok slng ∧
      strLen slat = 6 ∧ strLen slng = 6 ∧
      pyIsdigit slat = true ∧ pyIsdigit slng = true ∧
      decode_lat_int slat = lat ∧ decode_lng_int slng = lng := by
  intro lat lng h1 h2 h3 h4
  have hplat : pyInt (intToStr lat) = some lat :=
    pyInt_intToStr (lt_of_le_of_lt (show lat.natAbs ≤ 90000 by omega) (by norm_num))
  have hplng : pyInt (intToStr lng) = some lng :=
    pyInt_intToStr (lt_of_le_of_lt (show lng.natAbs ≤ 180000 by omega) (by norm_num))
  obtain ⟨hlat_len, hlat_dig, hlat_val⟩ :=
    pyZeroPad_spec (v := lat + 90000) (by omega) (by omega)
  obtain ⟨hlng_len, hlng_dig, hlng_val⟩ :=
    pyZeroPad_spec (v := lng + 180000) (by omega) (by omega)
  refine ⟨⟨pyZeroPad 6 (lat + 90000)⟩, ⟨pyZeroPad 6 (lng + 180000)⟩, ?_, ?_, hlat_len,
    hlng_len, ?_, ?_, ?_, ?_⟩
  · have := @format_coord_eq_ok (intToStr lat) "lat_code" 6 (-90000) 90000 lat hplat h1 h2
    simpa using this
  · have := @format_coord_eq_ok (intToStr lng) "lng_code" 6 (-180000) 180000 lng hplng h3 h4
    simpa using this
  · rw [pyIsdigit_iff]
    exact ⟨by intro hc; have := congrArg List.length hc; simp [hlat_len] at this,
      hlat_dig⟩
  · rw [pyIsdigit_iff]
    exact ⟨by intro hc; have := congrArg List.length hc; simp [hlng_len] at this,
      hlng_dig⟩
  · rw [decode_lat_int]
    show (digitsVal (pyZeroPad 6 (lat + 90000)) : Int) - 90000 = lat
    rw [hlat_val]
    omega
  · rw [decode_lng_int]
    show (digitsVal (pyZeroPad 6 (lng + 180000)) : Int) - 180000 = lng
    rw [hlng_val]
    omega

/-- Witness for C2 at lat = 12345 and lng = -54321. -/
theorem C2_offset_symmetry_witness :
    ∃ slat slng : String,
      format_coord (intToStr 12345) 6 "lat_code" (-90000) 90000 = .ok slat ∧
      format_coord (intToStr (-54321)) 6 "lng_code" (-180000) 180000 = .ok slng ∧
      strLen slat = 6 ∧ strLen slng = 6 ∧
      pyIsdigit slat = true ∧ pyIsdigit slng = true ∧
      decode_lat_int slat = 12345 ∧ decode_lng_int slng = -54321 :=
  C2_offset_symmetry 12345 (-54321) (by norm_num) (by norm_num) (by norm_num) (by norm_num)

/-- C5 counterexample: the carrier code `x` is a format violation
(non-numeric) and the source code `999` is an unknown-code violation, yet
`encode_disaster` reports the unknown-code error, because the dictionary
validations run before any per-field format check on the encode path.
(The next conjuncts record the related subtlety: for a malformed source
code such as `99x` with unknown carrier `9`, the error reported is the
`source code must be 3 digits` guard raised inside `get_source_name`
during the dictionary step — still not an error of the later
`_format_coord`/`_ensure_numeric` checks.) -/
theorem C5_counterexample :
    pyIsdigit "x" = false ∧
    encode_disaster ⟨"10", "20", "20210522020400"⟩ ⟨"999"⟩ ⟨"x"⟩ ⟨"3", "02", "001"⟩ =
      .error "unknown source code: 999" ∧
    pyIsdigit "99x" = false ∧
    get_carrier_name "9" = none ∧
    encode_disaster ⟨"10", "20", "20210522020400"⟩ ⟨"99x"⟩ ⟨"9"⟩ ⟨"3", "02", "001"⟩ =
      .error "source code must be 3 digits" := by decide

/-- C5 (amended): `decode_disaster` detects wrong length and non-numeric
input before any dictionary lookup and reports the format error.
`encode_disaster` instead runs the three dictionary validations, in
source-carrier-disaster order, before every per-field format check
(`_format_coord` / `_ensure_numeric`), so the error of the first failing
validation is the one reported even when format violations are also
present — and that error is whatever the dictionary step raises: the
unknown-code message, or, for a malformed source code, the
`source code must be 3 digits` guard of `get_source_name`. -/
theorem C5_format_before_dictionary_on_decode :
    (∀ t : String, strLen t ≠ 36 → decode_disaster t = .error "encoded id length must be 36") ∧
    (∀ t : String, strLen t = 36 → pyIsdigit t = false →
      decode_disaster t = .error "encoded id must be numeric") ∧
    (∀ (e : EventInfo) (s : SourceInfo) (c : CarrierInfo) (d : DisasterInfo) (m : String),
      validate_source s.code = .error m → encode_disaster e s c d = .error m) ∧
    (∀ (e : EventInfo) (s : SourceInfo) (c : CarrierInfo) (d : DisasterInfo) (m : String),
      validate_source s.code = .ok () → validate_carrier c.code = .error m →
      encode_disaster e s c d = .error m) ∧
    (∀ (e : EventInfo) (s : SourceInfo) (c : CarrierInfo) (d : DisasterInfo) (m : String),
      validate_source s.code = .ok () → validate_carrier c.code = .ok () →
      validate_disaster d.category d.sub_category d.indicator = .error m →
      encode_disaster e s c d = .error m) := by
  refine ⟨?_, ?_, ?_, ?_, ?_⟩
  · intro t h
    unfold decode_disaster
    rw [if_pos (by simpa [ID_TOTAL_LENGTH] using h)]
  · intro t h1 h2
    unfold decode_disaster
    rw [if_neg (by simp [ID_TOTAL_LENGTH, h1]), if_pos (by simp [h2])]
  · intro e s c d m hm
    unfold encode_disaster
    rw [hm, except_bind_er]
  · intro e s c d m hs hm
    unfold encode_disaster
    rw [hs, except_bind_pure, hm, except_bind_er]
  · intro e s c d m hs hc hm
    unfold encode_disaster
    rw [hs, except_bind_pure, hc, except_bind_pure, hm, except_bind_er]

/-- Witness for C5 at the short input `123`, a tuple with unknown source
code `999`, a tuple with unknown carrier code `x`, and a tuple with
unknown disaster category `9` — each with a format violation also present
deeper in the tuple. -/
theorem C5_format_before_dictionary_on_decode_witness :
    decode_disaster "123" = .error "encoded id length must be 36" ∧
    encode_disaster ⟨"10", "20", "20210522020400"⟩ ⟨"999"⟩ ⟨"x"⟩ ⟨"3", "02", "001"⟩ =
      .error "unknown source code: 999" ∧
    encode_disaster ⟨"10", "20", "20210522020400"⟩ ⟨"101"⟩ ⟨"x"⟩ ⟨"3", "02", "0x1"⟩ =
      .error "unknown carrier code: x" ∧
    encode_disaster ⟨"10", "20", "20210522020400"⟩ ⟨"101"⟩ ⟨"0"⟩ ⟨"9", "02", "0x1"⟩ =
      .error "unknown disaster code combination: 9020x1" :=
  ⟨C5_format_before_dictionary_on_decode.1 "123" (by decide),
    C5_format_before_dictionary_on_decode.2.2.1 ⟨"10", "20", "20210522020400"⟩ ⟨"999"⟩
      ⟨"x"⟩ ⟨"3", "02", "001"⟩ "unknown source code: 999" (by decide),
    C5_format_before_dictionary_on_decode.2.2.2.1 ⟨"10", "20", "20210522020400"⟩ ⟨"101"⟩
      ⟨"x"⟩ ⟨"3", "02", "0x1"⟩ "unknown carrier code: x" (by decide) (by decide),
    C5_format_before_dictionary_on_decode.2.2.2.2 ⟨"10", "20", "20210522020400"⟩ ⟨"101"⟩
      ⟨"0"⟩ ⟨"9", "02", "0x1"⟩ "unknown disaster code combination: 9020x1" (by decide)
      (by decide) (by decide)⟩

/-- C3: every identifier produced by `encode_disaster` (from a pydantic-valid
event record) has length exactly 36 and consists of digits only, and
`decode_disaster` fails on every input of length ≠ 36 and on every input
containing a non-digit character. -/
theorem C3_fixed_width_and_numeric :
    (∀ (e : EventInfo) (s : SourceInfo) (c : CarrierInfo) (d : DisasterInfo) (r : String),
      e.Valid → encode_disaster e s c d = .ok r → strLen r = 36 ∧ pyIsdigit r = true) ∧
    (∀ t : String, strLen t ≠ 36 → exceptOk (decode_disaster t) = false) ∧
    (∀ t : String, (∃ ch ∈ t.data, isDigitChar ch = false) →
      exceptOk (decode_disaster t) = false) := by
  refine ⟨?_, ?_, ?_⟩
  · intro e s c d r hval henc
    obtain ⟨-, -, -, vlat, vlng, hplat, hlr1, hlr2, hplng, hgr1, hgr2, hsl, hsd, hcl, hcd,
      hd1l, hd1d, hd2l, hd2d, hd3l, hd3d, hid, hlen36⟩ := encode_disaster_ok henc
    obtain ⟨-, -, -, -, -, -, -, -, htd⟩ := mkEventInfoE_ok hval
    refine ⟨hlen36, ?_⟩
    obtain ⟨hlat_len, hlat_dig, -⟩ := pyZeroPad_spec (v := vlat + 90000) (by omega) (by omega)
    obtain ⟨hlng_len, hlng_dig, -⟩ := pyZeroPad_spec (v := vlng + 180000) (by omega) (by omega)
    rw [pyIsdigit_iff]
    constructor
    · intro hc
      have := congrArg List.length hc
      rw [hid] at this
      simp [String.data_append, List.length_append, hlat_len] at this
    · rw [hid]
      simp only [String.data_append, List.all_append, Bool.and_eq_true]
      exact ⟨⟨⟨⟨⟨⟨⟨hlat_dig, hlng_dig⟩, ((pyIsdigit_iff _).mp htd).2⟩,
        ((pyIsdigit_iff _).mp hsd).2⟩, ((pyIsdigit_iff _).mp hcd).2⟩,
        ((pyIsdigit_iff _).mp hd1d).2⟩, ((pyIsdigit_iff _).mp hd2d).2⟩,
        ((pyIsdigit_iff _).mp hd3d).2⟩
  · intro t hlen
    unfold decode_disaster
    rw [if_pos (by simpa [ID_TOTAL_LENGTH] using hlen)]
    rfl
  · intro t hch
    obtain ⟨ch, hmem, hnd⟩ := hch
    by_cases hL : strLen t ≠ 36
    · unfold decode_disaster
      rw [if_pos (by simpa [ID_TOTAL_LENGTH] using hL)]
      rfl
    · push_neg at hL
      unfold decode_disaster
      have hnotdig : ¬ pyIsdigit t = true := by
        rw [pyIsdigit_iff]
        intro hcon
        have := (List.all_eq_true.mp hcon.2) ch hmem
        rw [hnd] at this
        exact Bool.noConfusion this
      rw [if_neg (by simp [ID_TOTAL_LENGTH, hL]), if_pos hnotdig]
      rfl

/-- Witness for C3 at a concrete valid tuple and the short input `123`. -/
theorem C3_fixed_width_and_numeric_witness :
    (strLen "090010180020202105220204001010302001" = 36 ∧
      pyIsdigit "090010180020202105220204001010302001" = true) ∧
    exceptOk (decode_disaster "123") = false :=
  ⟨C3_fixed_width_and_numeric.1 ⟨"10", "20", "20210522020400"⟩ ⟨"101"⟩ ⟨"0"⟩
      ⟨"3", "02", "001"⟩ "090010180020202105220204001010302001" (by decide) (by decide),
    C3_fixed_width_and_numeric.2.1 "123" (by decide)⟩

/-- C4: encode fails whenever any of the three dictionary validations
fails; every successfully decoded record passed all three dictionary
validations and carries a fully populated, non-empty name mapping; and a
well-formed 36-digit identifier whose disaster category digit is `9`
never decodes. -/
theorem C4_unknown_code_rejection :
    (∀ (e : EventInfo) (s : SourceInfo) (c : CarrierInfo) (d : DisasterInfo),
      (exceptOk (validate_source s.code) = false ∨
        exceptOk (validate_carrier c.code) = false ∨
        exceptOk (validate_disaster d.category d.sub_category d.indicator) = false) →
      exceptOk (encode_disaster e s c d) = false) ∧
    (∀ (t : String) (r : DecodedRecord), decode_disaster t = .ok r →
      validate_source r.source.code = .ok () ∧
      validate_carrier r.carrier.code = .ok () ∧
      validate_disaster r.disaster.category r.disaster.sub_category r.disaster.indicator
        = .ok () ∧
      ∃ ns : Names, r.names = some ns ∧
        (∃ a, ns.source = some a ∧ a ≠ "") ∧
        (∃ a, ns.carrier = some a ∧ a ≠ "") ∧
        (∃ a, ns.disaster_category = some a ∧ a ≠ "") ∧
        (∃ a, ns.disaster_sub_category = some a ∧ a ≠ "") ∧
        (∃ a, ns.indicator = some a ∧ a ≠ "")) ∧
    (∀ t : String, strLen t = 36 → pyIsdigit t = true → pySlice t 30 31 = "9" →
      exceptOk (decode_disaster t) = false) := by
  refine ⟨?_, ?_, ?_⟩
  · intro e s c d hdisj
    cases hvs : validate_source s.code with
    | error m =>
      unfold encode_disaster
      rw [hvs, except_bind_er]
      rfl
    | ok u =>
      cases u
      cases hvc : validate_carrier c.code with
      | error m =>
        unfold encode_disaster
        rw [hvs, except_bind_pure, hvc, except_bind_er]
        rfl
      | ok u =>
        cases u
        cases hvd : validate_disaster d.category d.sub_category d.indicator with
        | error m =>
          unfold encode_disaster
          rw [hvs, except_bind_pure, hvc, except_bind_pure, hvd, except_bind_er]
          rfl
        | ok u =>
          cases u
          exfalso
          rcases hdisj with h | h | h
          · rw [hvs] at h; exact Bool.noConfusion h
          · rw [hvc] at h; exact Bool.noConfusion h
          · rw [hvd] at h; exact Bool.noConfusion h
  · intro t r hok
    obtain ⟨h36, hdig, hev, hsrc, hcar, hdis, hvs, hvc, hvd, hid, hnames⟩ :=
      decode_disaster_ok_inv hok
    have hlen3 : strLen (pySlice t 26 29) = 3 := by rw [strLen_pySlice]; omega
    have hdig3 : pyIsdigit (pySlice t 26 29) = true :=
      pyIsdigit_pySlice hdig (by rw [strLen_pySlice]; omega)
    refine ⟨?_, ?_, ?_, ?_⟩
    · rw [hsrc]; exact hvs
    · rw [hcar]; exact hvc
    · rw [hdis]; exact hvd
    · obtain ⟨a, hsome⟩ := validate_source_ok hvs
      have heq := get_source_name_eq_ok hlen3 hdig3
      rw [hsome] at heq
      injection heq with h2
      obtain ⟨b, hb⟩ := validate_carrier_ok hvc
      obtain ⟨⟨cc, hcc⟩, ⟨ii, hii⟩⟩ := validate_disaster_ok hvd
      refine ⟨_, hnames, ⟨a, h2.symm, SOURCE_DICT_nonempty h2.symm⟩,
        ⟨b, hb, CARRIER_DICT_nonempty hb⟩, ⟨cc, hcc, DISASTER_CATEGORY_DICT_nonempty hcc⟩,
        ⟨cc, hcc, DISASTER_CATEGORY_DICT_nonempty hcc⟩,
        ⟨ii, hii, DISASTER_INDICATOR_DICT_nonempty hii⟩⟩
  · intro t h36 hdig h9
    cases hres : decode_disaster t with
    | error m => rfl
    | ok r =>
      exfalso
      obtain ⟨-, -, -, -, -, -, -, -, hvd, -, -⟩ := decode_disaster_ok_inv hres
      rw [h9] at hvd
      obtain ⟨⟨a, hcat⟩, -⟩ := validate_disaster_ok hvd
      rw [DISASTER_CATEGORY_DICT_nine] at hcat
      exact Option.noConfusion hcat

/-- Witness for C4 at an unknown source code, a known-good decode, and a
36-digit identifier with disaster category digit 9. -/
theorem C4_unknown_code_rejection_witness :
    exceptOk (encode_disaster ⟨"10", "20", "20210522020400"⟩ ⟨"999"⟩ ⟨"0"⟩
      ⟨"3", "02", "001"⟩) = false ∧
    (validate_source "101" = .ok () ∧ validate_carrier "0" = .ok () ∧
      validate_disaster "3" "02" "001" = .ok () ∧
      ∃ ns : Names,
        (some { source := some "后方地震应急指挥部", carrier := some "文字",
                disaster_category := some "砖木", disaster_sub_category := some "砖木",
                indicator := some "一般损坏面积" } : Option Names) = some ns ∧
        (∃ a, ns.source = some a ∧ a ≠ "") ∧
        (∃ a, ns.carrier = some a ∧ a ≠ "") ∧
        (∃ a, ns.disaster_category = some a ∧ a ≠ "") ∧
        (∃ a, ns.disaster_sub_category = some a ∧ a ≠ "") ∧
        (∃ a, ns.indicator = some a ∧ a ≠ "")) ∧
    exceptOk (decode_disaster "090010180020202105220204001010902001") = false :=
  ⟨C4_unknown_code_rejection.1 ⟨"10", "20", "20210522020400"⟩ ⟨"999"⟩ ⟨"0"⟩
      ⟨"3", "02", "001"⟩ (Or.inl (by decide)),
    C4_unknown_code_rejection.2.1 "090010180020202105220204001010302001"
      { id := "090010180020202105220204001010302001"
        event := ⟨"10", "20", "20210522020400"⟩
        source := ⟨"101"⟩
        carrier := ⟨"0"⟩
        disaster := ⟨"3", "02", "001"⟩
        names := some { source := some "后方地震应急指挥部", carrier := some "文字",
                        disaster_category := some "砖木", disaster_sub_category := some "砖木",
                        indicator := some "一般损坏面积" } } (by decide),
    C4_unknown_code_rejection.2.2 "090010180020202105220204001010902001" (by decide)
      (by decide) (by decide)⟩

/-- C9: every successfully decoded record carries coordinate strings whose
integer values lie in the latitude and longitude ranges, and decoding fails
whenever the 6-digit latitude offset field exceeds 180000 or the longitude
offset field exceeds 360000. -/
theorem C9_decoded_coordinates_in_range :
    (∀ (t : String) (r : DecodedRecord), decode_disaster t = .ok r →
      ∃ v, pyInt r.event.lat_code = some v ∧ -90000 ≤ v ∧ v ≤ 90000) ∧
    (∀ (t : String) (r : DecodedRecord), decode_disaster t = .ok r →
      ∃ v, pyInt r.event.lng_code = some v ∧ -180000 ≤ v ∧ v ≤ 180000) ∧
    (∀ t : String, strLen t = 36 → pyIsdigit t = true →
      180000 < digitsVal (pySlice t 0 6).data → exceptOk (decode_disaster t) = false) ∧
    (∀ t : String, strLen t = 36 → pyIsdigit t = true →
      360000 < digitsVal (pySlice t 6 12).data → exceptOk (decode_disaster t) = false) := by
  have lat_bound : ∀ t : String, strLen t = 36 → pyIsdigit t = true →
      digitsVal (pySlice t 0 6).data < 1000000 := by
    intro t h36 hdig
    have hlen : (pySlice t 0 6).data.length = 6 := by
      have := strLen_pySlice t 0 6
      rw [h36] at this
      simpa [strLen] using this
    have := digitsVal_lt (pySlice t 0 6).data (pySlice_all_digits ((pyIsdigit_iff t).mp hdig).2 0 6)
    rw [hlen] at this
    omega
  have lng_bound : ∀ t : String, strLen t = 36 → pyIsdigit t = true →
      digitsVal (pySlice t 6 12).data < 1000000 := by
    intro t h36 hdig
    have hlen : (pySlice t 6 12).data.length = 6 := by
      have := strLen_pySlice t 6 12
      rw [h36] at this
      simpa [strLen] using this
    have := digitsVal_lt (pySlice t 6 12).data
      (pySlice_all_digits ((pyIsdigit_iff t).mp hdig).2 6 12)
    rw [hlen] at this
    omega
  refine ⟨?_, ?_, ?_, ?_⟩
  · intro t r hok
    obtain ⟨-, -, hev, -⟩ := decode_disaster_ok_inv hok
    obtain ⟨heq, -, -, hv, -⟩ := mkEventInfoE_ok hev
    obtain ⟨v, hpv, hv1, hv2⟩ := hv
    exact ⟨v, by rw [heq]; exact hpv, hv1, hv2⟩
  · intro t r hok
    obtain ⟨-, -, hev, -⟩ := decode_disaster_ok_inv hok
    obtain ⟨heq, -, -, -, -, -, hv, -⟩ := mkEventInfoE_ok hev
    obtain ⟨v, hpv, hv1, hv2⟩ := hv
    exact ⟨v, by rw [heq]; exact hpv, hv1, hv2⟩
  · intro t h36 hdig hbig
    cases hres : decode_disaster t with
    | error m => rfl
    | ok r =>
      exfalso
      obtain ⟨-, -, hev, -⟩ := decode_disaster_ok_inv hres
      obtain ⟨-, -, -, hv, -⟩ := mkEventInfoE_ok hev
      obtain ⟨v, hpv, -, hv2⟩ := hv
      have hLa : decode_lat_int (pySlice t 0 6) =
          (digitsVal (pySlice t 0 6).data : Int) - 90000 := rfl
      have habs : (decode_lat_int (pySlice t 0 6)).natAbs < 10 ^ 40 := by
        have := lat_bound t h36 hdig
        rw [hLa]
        have h40 : (1000000 : Nat) < 10 ^ 40 := by norm_num
        omega
      rw [pyInt_intToStr habs] at hpv
      injection hpv with hpv
      have := lat_bound t h36 hdig
      rw [← hpv, hLa] at hv2
      omega
  · intro t h36 hdig hbig
    cases hres : decode_disaster t with
    | error m => rfl
    | ok r =>
      exfalso
      obtain ⟨-, -, hev, -⟩ := decode_disaster_ok_inv hres
      obtain ⟨-, -, -, -, -, -, hv, -⟩ := mkEventInfoE_ok hev
      obtain ⟨v, hpv, -, hv2⟩ := hv
      have hLg : decode_lng_int (pySlice t 6 12) =
          (digitsVal (pySlice t 6 12).data : Int) - 180000 := rfl
      have habs : (decode_lng_int (pySlice t 6 12)).natAbs < 10 ^ 40 := by
        have := lng_bound t h36 hdig
        rw [hLg]
        have h40 : (1000000 : Nat) < 10 ^ 40 := by norm_num
        omega
      rw [pyInt_intToStr habs] at hpv
      injection hpv with hpv
      have := lng_bound t h36 hdig
      rw [← hpv, hLg] at hv2
      omega

/-- Witness for C9 at a known-good identifier and two out-of-range offset
fields. -/
theorem C9_decoded_coordinates_in_range_witness :
    (∃ v, pyInt "10" = some v ∧ -90000 ≤ v ∧ v ≤ 90000) ∧
    exceptOk (decode_disaster "999999180020202105220204001010302001") = false ∧
    exceptOk (decode_disaster "090010999999202105220204001010302001") = false :=
  ⟨C9_decoded_coordinates_in_range.1 "090010180020202105220204001010302001"
      { id := "090010180020202105220204001010302001"
        event := ⟨"10", "20", "20210522020400"⟩
        source := ⟨"101"⟩
        carrier := ⟨"0"⟩
        disaster := ⟨"3", "02", "001"⟩
        names := some { source := some "后方地震应急指挥部", carrier := some "文字",
                        disaster_category := some "砖木", disaster_sub_category := some "砖木",
                        indicator := some "一般损坏面积" } } (by decide),
    C9_decoded_coordinates_in_range.2.2.1 "999999180020202105220204001010302001"
      (by decide) (by decide) (by decide),
    C9_decoded_coordinates_in_range.2.2.2 "090010999999202105220204001010302001"
      (by decide) (by decide) (by decide)⟩

theorem string_decompose_slices (t : String) (h36 : strLen t = 36) :
    t = ⟨(pySlice t 0 6).data ++ (pySlice t 6 12).data ++ (pySlice t 12 26).data ++
      (pySlice t 26 29).data ++ (pySlice t 29 30).data ++ (pySlice t 30 31).data ++
      (pySlice t 31 33).data ++ (pySlice t 33 36).data⟩ := by
  apply String.ext
  show t.data = _
  have hL : t.data.length = 36 := h36
  have step : ∀ (L : List Char) (n : Nat), L = L.take n ++ L.drop n :=
    fun L n => (List.take_append_drop n L).symm
  have d6 : t.data.drop 6 = (t.data.drop 6).take 6 ++ t.data.drop 12 := by
    conv_lhs => rw [step (t.data.drop 6) 6]
    rw [List.drop_drop]
  have d12 : t.data.drop 12 = (t.data.drop 12).take 14 ++ t.data.drop 26 := by
    conv_lhs => rw [step (t.data.drop 12) 14]
    rw [List.drop_drop]
  have d26 : t.data.drop 26 = (t.data.drop 26).take 3 ++ t.data.drop 29 := by
    conv_lhs => rw [step (t.data.drop 26) 3]
    rw [List.drop_drop]
  have d29 : t.data.drop 29 = (t.data.drop 29).take 1 ++ t.data.drop 30 := by
    conv_lhs => rw [step (t.data.drop 29) 1]
    rw [List.drop_drop]
  have d30 : t.data.drop 30 = (t.data.drop 30).take 1 ++ t.data.drop 31 := by
    conv_lhs => rw [step (t.data.drop 30) 1]
    rw [List.drop_drop]
  have d31 : t.data.drop 31 = (t.data.drop 31).take 2 ++ t.data.drop 33 := by
    conv_lhs => rw [step (t.data.drop 31) 2]
    rw [List.drop_drop]
  have d33 : t.data.drop 33 = (t.data.drop 33).take 3 := by
    have h33 : (t.data.drop 33).length = 3 := by
      rw [List.length_drop, hL]
    conv_lhs => rw [← List.take_length (t.data.drop 33)]
    rw [h33]
  conv_lhs => rw [step t.data 6, d6, d12, d26, d29, d30, d31, d33]
  simp only [pySlice, List.append_assoc]
  norm_num

/-- C10 (amended): decoding performs no calendar validation on the time
field.  Any 36-digit identifier whose offset-decoded coordinates are in
range with at least two-character decimal representations (the pydantic
`min_length=2` constraint on the rebuilt records) and whose source, carrier
and disaster codes are in the Dictionary Store decodes successfully — no
matter whether the 14-digit time substring is a valid calendar timestamp. -/
theorem C10_no_calendar_validation_on_decode :
    ∀ t : String, strLen t = 36 → pyIsdigit t = true →
      -90000 ≤ decode_lat_int (pySlice t 0 6) → decode_lat_int (pySlice t 0 6) ≤ 90000 →
      (decode_lat_int (pySlice t 0 6) < 0 ∨ 10 ≤ decode_lat_int (pySlice t 0 6)) →
      -180000 ≤ decode_lng_int (pySlice t 6 12) → decode_lng_int (pySlice t 6 12) ≤ 180000 →
      (decode_lng_int (pySlice t 6 12) < 0 ∨ 10 ≤ decode_lng_int (pySlice t 6 12)) →
      validate_source (pySlice t 26 29) = .ok () →
      validate_carrier (pySlice t 29 30) = .ok () →
      validate_disaster (pySlice t 30 31) (pySlice t 31 33) (pySlice t 33 36) = .ok () →
      exceptOk (decode_disaster t) = true := by
  intro t h36 hdig hlat1 hlat2 hlat3 hlng1 hlng2 hlng3 hvs hvc hvd
  have len1 : (pySlice t 0 6).data.length = 6 := by
    have := strLen_pySlice t 0 6
    rw [h36] at this
    exact this
  have len2 : (pySlice t 6 12).data.length = 6 := by
    have := strLen_pySlice t 6 12
    rw [h36] at this
    exact this
  have len3 : (pySlice t 12 26).data.length = 14 := by
    have := strLen_pySlice t 12 26
    rw [h36] at this
    exact this
  have len4 : (pySlice t 26 29).data.length = 3 := by
    have := strLen_pySlice t 26 29
    rw [h36] at this
    exact this
  have len5 : (pySlice t 29 30).data.length = 1 := by
    have := strLen_pySlice t 29 30
    rw [h36] at this
    exact this
  have len6 : (pySlice t 30 31).data.length = 1 := by
    have := strLen_pySlice t 30 31
    rw [h36] at this
    exact this
  have len7 : (pySlice t 31 33).data.length = 2 := by
    have := strLen_pySlice t 31 33
    rw [h36] at this
    exact this
  have len8 : (pySlice t 33 36).data.length = 3 := by
    have := strLen_pySlice t 33 36
    rw [h36] at this
    exact this
  have pow7 : (10 : Nat) ^ 7 = 10000000 := by norm_num
  have pow40 : (90000 : Nat) < 10 ^ 40 ∧ (180000 : Nat) < 10 ^ 40 := by norm_num
  have habs_lat : (decode_lat_int (pySlice t 0 6)).natAbs ≤ 90000 := by omega
  have habs_lng : (decode_lng_int (pySlice t 6 12)).natAbs ≤ 180000 := by omega
  have hev : mkEventInfoE (intToStr (decode_lat_int (pySlice t 0 6)))
      (intToStr (decode_lng_int (pySlice t 6 12))) (pySlice t 12 26) =
      .ok ⟨intToStr (decode_lat_int (pySlice t 0 6)),
        intToStr (decode_lng_int (pySlice t 6 12)), pySlice t 12 26⟩ := by
    apply mkEventInfoE_eq_ok
    · exact strLen_intToStr_ge_two hlat3
    · exact strLen_intToStr_le (by omega)
    · exact pyInt_intToStr (by omega)
    · exact hlat1
    · exact hlat2
    · exact strLen_intToStr_ge_two hlng3
    · exact strLen_intToStr_le (by omega)
    · exact pyInt_intToStr (by omega)
    · exact hlng1
    · exact hlng2
    · exact len3
    · exact pyIsdigit_pySlice hdig (by rw [strLen_pySlice, h36]; decide)
  have hdec := string_decompose_slices t h36
  have hdigs : ((pySlice t 0 6).data ++ (pySlice t 6 12).data ++ (pySlice t 12 26).data ++
      (pySlice t 26 29).data ++ (pySlice t 29 30).data ++ (pySlice t 30 31).data ++
      (pySlice t 31 33).data ++ (pySlice t 33 36).data).all isDigitChar = true := by
    have h2 : t.data = (pySlice t 0 6).data ++ (pySlice t 6 12).data ++
        (pySlice t 12 26).data ++ (pySlice t 26 29).data ++ (pySlice t 29 30).data ++
        (pySlice t 30 31).data ++ (pySlice t 31 33).data ++ (pySlice t 33 36).data :=
      congrArg String.data hdec
    rw [← h2]
    exact ((pyIsdigit_iff t).mp hdig).2
  have hresult := decode_disaster_eq_ok len1 len2 len3 len4 len5 len6 len7 len8 hdigs hev
    hvs hvc hvd
  rw [← hdec] at hresult
  rw [hresult]
  rfl

/-- C10 counterexample: the identifier below has in-range coordinates
(latitude value 5, longitude value 20), known codes and even a valid
calendar time, yet decoding fails, because the rebuilt `lat_code` string
`5` violates the pydantic `min_length=2` bound. -/
theorem C10_counterexample :
    strLen "090005180020202105220204001010302001" = 36 ∧
    pyIsdigit "090005180020202105220204001010302001" = true ∧
    decode_lat_int (pySlice "090005180020202105220204001010302001" 0 6) = 5 ∧
    decode_lng_int (pySlice "090005180020202105220204001010302001" 6 12) = 20 ∧
    pySlice "090005180020202105220204001010302001" 26 29 = "101" ∧
    validate_source "101" = .ok () ∧
    validate_carrier "0" = .ok () ∧
    validate_disaster "3" "02" "001" = .ok () ∧
    strptime14_ok "20210522020400" = true ∧
    exceptOk (decode_disaster "090005180020202105220204001010302001") = false := by
  decide

/-- Witness for C10 at an identifier whose time substring has month 99. -/
theorem C10_no_calendar_validation_on_decode_witness :
    strptime14_ok "20219901020304" = false ∧
    exceptOk (decode_disaster "100000200000202199010203041010302001") = true :=
  ⟨by decide,
    C10_no_calendar_validation_on_decode "100000200000202199010203041010302001"
      (by decide) (by decide) (by decide) (by decide) (by decide) (by decide) (by decide)
      (by decide) (by decide) (by decide) (by decide)⟩

/-- C1 (amended): for every tuple accepted by `encode_disaster` whose
`lat_code` and `lng_code` are canonical decimal integer strings
(`str(int(·))` fixed points), decoding the encoded identifier succeeds,
the decoded `id` is the encoded string, and every decoded field equals the
corresponding input field. -/
theorem C1_roundtrip_canonical :
    ∀ (e : EventInfo) (s : SourceInfo) (c : CarrierInfo) (d : DisasterInfo)
      (vlat vlng : Int) (id : String),
      e.Valid →
      e.lat_code = intToStr vlat → e.lng_code = intToStr vlng →
      encode_disaster e s c d = .ok id →
      ∃ r : DecodedRecord, decode_disaster id = .ok r ∧ r.id = id ∧ r.event = e ∧
        r.source = s ∧ r.carrier = c ∧ r.disaster = d := by
  intro e s c d vlat vlng id hval hlat hlng henc
  obtain ⟨hvs, hvc, hvd, v1, v2, hp1, hr1a, hr1b, hp2, hr2a, hr2b, hsl, hsd, hcl, hcd,
    hd1l, hd1d, hd2l, hd2d, hd3l, hd3d, hid, hlen36⟩ := encode_disaster_ok henc
  obtain ⟨-, hlat2, hlat8, -, hlng2, hlng8, -, htl, htd⟩ := mkEventInfoE_ok hval
  have hblat : vlat.natAbs < 10 ^ 8 := natAbs_lt_of_strLen_intToStr_le (hlat ▸ hlat8)
  have hblng : vlng.natAbs < 10 ^ 8 := natAbs_lt_of_strLen_intToStr_le (hlng ▸ hlng8)
  have hpow : (10 : Nat) ^ 8 < 10 ^ 40 := by norm_num
  have hv1 : vlat = v1 := by
    have hc : pyInt e.lat_code = some vlat := by
      rw [hlat]
      exact pyInt_intToStr (lt_trans hblat hpow)
    rw [hc] at hp1
    exact Option.some_injective _ hp1
  have hv2 : vlng = v2 := by
    have hc : pyInt e.lng_code = some vlng := by
      rw [hlng]
      exact pyInt_intToStr (lt_trans hblng hpow)
    rw [hc] at hp2
    exact Option.some_injective _ hp2
  subst hv1 hv2
  obtain ⟨hpad1_len, hpad1_dig, hpad1_val⟩ :=
    pyZeroPad_spec (v := vlat + 90000) (by omega) (by omega)
  obtain ⟨hpad2_len, hpad2_dig, hpad2_val⟩ :=
    pyZeroPad_spec (v := vlng + 180000) (by omega) (by omega)
  have hid' : id = ⟨pyZeroPad 6 (vlat + 90000) ++ pyZeroPad 6 (vlng + 180000) ++
      e.time_code.data ++ s.code.data ++ c.code.data ++ d.category.data ++
      d.sub_category.data ++ d.indicator.data⟩ := by
    rw [hid]
    apply String.ext
    simp [String.data_append]
  have hlat_str : intToStr (decode_lat_int ⟨pyZeroPad 6 (vlat + 90000)⟩) = e.lat_code := by
    have hv : decode_lat_int ⟨pyZeroPad 6 (vlat + 90000)⟩ = vlat := by
      show (digitsVal (pyZeroPad 6 (vlat + 90000)) : Int) - 90000 = vlat
      rw [hpad1_val]
      omega
    rw [hv, hlat]
  have hlng_str : intToStr (decode_lng_int ⟨pyZeroPad 6 (vlng + 180000)⟩) = e.lng_code := by
    have hv : decode_lng_int ⟨pyZeroPad 6 (vlng + 180000)⟩ = vlng := by
      show (digitsVal (pyZeroPad 6 (vlng + 180000)) : Int) - 180000 = vlng
      rw [hpad2_val]
      omega
    rw [hv, hlng]
  have hev : mkEventInfoE (intToStr (decode_lat_int ⟨pyZeroPad 6 (vlat + 90000)⟩))
      (intToStr (decode_lng_int ⟨pyZeroPad 6 (vlng + 180000)⟩)) ⟨e.time_code.data⟩ =
      .ok e := by
    rw [hlat_str, hlng_str]
    exact hval
  have hdigs : (pyZeroPad 6 (vlat + 90000) ++ pyZeroPad 6 (vlng + 180000) ++
      e.time_code.data ++ s.code.data ++ c.code.data ++ d.category.data ++
      d.sub_category.data ++ d.indicator.data).all isDigitChar = true := by
    simp only [List.all_append, Bool.and_eq_true]
    exact ⟨⟨⟨⟨⟨⟨⟨hpad1_dig, hpad2_dig⟩, ((pyIsdigit_iff _).mp htd).2⟩,
      ((pyIsdigit_iff _).mp hsd).2⟩, ((pyIsdigit_iff _).mp hcd).2⟩,
      ((pyIsdigit_iff _).mp hd1d).2⟩, ((pyIsdigit_iff _).mp hd2d).2⟩,
      ((pyIsdigit_iff _).mp hd3d).2⟩
  have hresult := decode_disaster_eq_ok hpad1_len hpad2_len htl hsl hcl hd1l hd2l hd3l
    hdigs hev hvs hvc hvd
  rw [← hid'] at hresult
  exact ⟨_, hresult, rfl, rfl, rfl, rfl, rfl⟩

/-- C1 counterexample: the tuple with `lat_code = "00"` (value 0) is
accepted by the pydantic models and by `encode_disaster`, but decoding the
encoded identifier fails: the rebuilt latitude string `str(0) = "0"`
violates the `min_length=2` bound of `EventInfo.lat_code`. -/
theorem C1_roundtrip_counterexample :
    EventInfo.Valid ⟨"00", "00", "20210522020400"⟩ ∧
    encode_disaster ⟨"00", "00", "20210522020400"⟩ ⟨"101"⟩ ⟨"0"⟩ ⟨"3", "02", "001"⟩ =
      .ok "090000180000202105220204001010302001" ∧
    exceptOk (decode_disaster "090000180000202105220204001010302001") = false := by
  decide

/-- Witness for C1 at a concrete canonical tuple. -/
theorem C1_roundtrip_canonical_witness :
    ∃ r : DecodedRecord,
      decode_disaster "090010180020202105220204001010302001" = .ok r ∧
      r.id = "090010180020202105220204001010302001" ∧
      r.event = ⟨"10", "20", "20210522020400"⟩ ∧ r.source = ⟨"101"⟩ ∧
      r.carrier = ⟨"0"⟩ ∧ r.disaster = ⟨"3", "02", "001"⟩ :=
  C1_roundtrip_canonical ⟨"10", "20", "20210522020400"⟩ ⟨"101"⟩ ⟨"0"⟩ ⟨"3", "02", "001"⟩
    10 20 "090010180020202105220204001010302001" (by decide) (by decide) (by decide)
    (by decide)

/-- C8: the location-code variant concrete scenario: building the event
from `632626200206` and the ISO time, encoding with source `101`, carrier
`0` and disaster `(3, 02, 001)` yields exactly
`632626200206202105220204001010302001`, and decoding that identifier
recovers exactly those fields with a non-empty indicator name. -/
theorem C8_location_variant_concrete :
    build_event_info_loc "632626200206" "2021-05-22T02:04:00Z" =
      .ok ⟨"632626200206", "20210522020400"⟩ ∧
    encode_disaster_loc ⟨"632626200206", "20210522020400"⟩ ⟨"101"⟩ ⟨"0"⟩ ⟨"3", "02", "001"⟩ =
      .ok "632626200206202105220204001010302001" ∧
    decode_disaster_loc "632626200206202105220204001010302001" =
      .ok { id := "632626200206202105220204001010302001"
            event := ⟨"632626200206", "20210522020400"⟩
            source := ⟨"101"⟩
            carrier := ⟨"0"⟩
            disaster := ⟨"3", "02", "001"⟩
            names := some { source := some "后方地震应急指挥部"
                            carrier := some "文字"
                            disaster_category := some "砖木"
                            disaster_sub_category := some "砖木"
                            indicator := some "一般损坏面积" } } ∧
    "一般损坏面积" ≠ "" := by
  decide

end MSHD
